import Mathlib

/-!
Verification development for the mattermost-rs event-stream bridge.

The Rust sources are shallowly embedded: the JSON wire values are an
inductive `Json`, the serde-derived decoders of `websocket.rs` and
`api/mod.rs` are explicit functions `Json -> Option _`, the custom
serde adapters of `serialize.rs` (`deserialize_embedded_json`,
`string_set`, `ts_seconds`, `option_ts_milliseconds`) are modelled
field-by-field, and the message handler `react_to_message` of
`main.rs` together with the `ws::Handler` for `WsClient` of
`websocket_client.rs` are modelled as explicit state transformers.
External collaborators (serde_json's text parser, chrono-tz's
Europe/Berlin zone, the `ws` crate's timeout scheduler) are modelled
by executable Lean functions following their documented behaviour.
-/

namespace Mattermost

/-- JSON values as handled by serde_json; numbers are restricted to
integers, which covers every payload appearing in this protocol. -/
inductive Json where
  | null : Json
  | bool (b : Bool) : Json
  | num (n : Int) : Json
  | str (s : String) : Json
  | arr (elems : List Json) : Json
  | obj (fields : List (String × Json)) : Json

/-- Field lookup in a JSON object; `none` on non-objects or missing keys. -/
def Json.getField : Json → String → Option Json
  | .obj fs, k => (fs.find? (fun p => p.1 == k)).map (·.2)
  | _, _ => none

/-- Expect a JSON string. -/
def Json.asStr : Json → Option String
  | .str s => some s
  | _ => none

/-- Expect a JSON integer. -/
def Json.asInt : Json → Option Int
  | .num n => some n
  | _ => none

/-- Expect a non-negative JSON integer (Rust unsigned integer fields). -/
def Json.asNat : Json → Option Nat
  | .num n => if 0 ≤ n then some n.toNat else none
  | _ => none

/-- Expect a JSON boolean. -/
def Json.asBool : Json → Option Bool
  | .bool b => some b
  | _ => none

/-- Expect a JSON array. -/
def Json.asArr : Json → Option (List Json)
  | .arr xs => some xs
  | _ => none

/-- Expect a JSON object and return its field list. -/
def Json.asObj : Json → Option (List (String × Json))
  | .obj fs => some fs
  | _ => none

/-- Check of serde's deny_unknown_fields: every key of the object must be
in the allowed list (non-objects are rejected by the struct decode). -/
def Json.keysAllowed (j : Json) (allowed : List String) : Bool :=
  match j with
  | .obj fs => fs.all (fun p => allowed.contains p.1)
  | _ => false

/-- Whitespace accepted between JSON tokens. -/
def isJsonWs (c : Char) : Bool :=
  c = ' ' || c = '\n' || c = '\t' || c = '\r'

/-- Skip leading JSON whitespace. -/
def skipWs : List Char → List Char
  | [] => []
  | c :: rest => if isJsonWs c then skipWs rest else c :: rest

/-- Parse the body of a JSON string literal (the opening quote already
consumed), handling the common escape sequences; returns the decoded
characters and the input after the closing quote. -/
def parseStringBody : List Char → Option (List Char × List Char)
  | [] => none
  | '"' :: rest => some ([], rest)
  | '\\' :: e :: rest =>
    (match e with
     | '"' => (parseStringBody rest).map (fun p => ('"' :: p.1, p.2))
     | '\\' => (parseStringBody rest).map (fun p => ('\\' :: p.1, p.2))
     | '/' => (parseStringBody rest).map (fun p => ('/' :: p.1, p.2))
     | 'n' => (parseStringBody rest).map (fun p => ('\n' :: p.1, p.2))
     | 't' => (parseStringBody rest).map (fun p => ('\t' :: p.1, p.2))
     | 'r' => (parseStringBody rest).map (fun p => ('\r' :: p.1, p.2))
     | _ => none)
  | c :: rest => (parseStringBody rest).map (fun p => (c :: p.1, p.2))

/-- Parse a nonempty run of decimal digits into a number. -/
def parseDigits : List Char → Nat → (Nat × List Char)
  | [], acc => (acc, [])
  | c :: rest, acc =>
    if c.isDigit then parseDigits rest (acc * 10 + (c.toNat - '0'.toNat))
    else (acc, c :: rest)

mutual

/-- Recursive-descent JSON value parse, fuelled for termination;
models serde_json's text parsing on the integer-numbered fragment used
by this protocol. -/
def parseVal : Nat → List Char → Option (Json × List Char)
  | 0, _ => none
  | fuel + 1, cs =>
    match skipWs cs with
    | 'n' :: 'u' :: 'l' :: 'l' :: rest => some (.null, rest)
    | 't' :: 'r' :: 'u' :: 'e' :: rest => some (.bool true, rest)
    | 'f' :: 'a' :: 'l' :: 's' :: 'e' :: rest => some (.bool false, rest)
    | '"' :: rest =>
      (parseStringBody rest).map (fun p => (.str (String.mk p.1), p.2))
    | '\x7b' :: rest =>
      (match skipWs rest with
       | '\x7d' :: rest2 => some (.obj [], rest2)
       | other => (parseMembers fuel other).map (fun p => (.obj p.1, p.2)))
    | '[' :: rest =>
      (match skipWs rest with
       | ']' :: rest2 => some (.arr [], rest2)
       | other => (parseElems fuel other).map (fun p => (.arr p.1, p.2)))
    | '-' :: c :: rest =>
      if c.isDigit then
        let (n, rest2) := parseDigits (c :: rest) 0
        some (.num (-(Int.ofNat n)), rest2)
      else none
    | c :: rest =>
      if c.isDigit then
        let (n, rest2) := parseDigits (c :: rest) 0
        some (.num (Int.ofNat n), rest2)
      else none
    | [] => none

/-- Parse the members of a JSON object after the opening brace (first
member expected next). -/
def parseMembers : Nat → List Char → Option (List (String × Json) × List Char)
  | 0, _ => none
  | fuel + 1, cs =>
    match skipWs cs with
    | '"' :: rest =>
      match parseStringBody rest with
      | none => none
      | some (key, rest2) =>
        match skipWs rest2 with
        | ':' :: rest3 =>
          match parseVal fuel rest3 with
          | none => none
          | some (v, rest4) =>
            match skipWs rest4 with
            | ',' :: rest5 =>
              (parseMembers fuel rest5).map
                (fun p => ((String.mk key, v) :: p.1, p.2))
            | '\x7d' :: rest5 => some ([(String.mk key, v)], rest5)
            | _ => none
        | _ => none
    | _ => none

/-- Parse the elements of a JSON array after the opening bracket (first
element expected next). -/
def parseElems : Nat → List Char → Option (List Json × List Char)
  | 0, _ => none
  | fuel + 1, cs =>
    match parseVal fuel cs with
    | none => none
    | some (v, rest) =>
      match skipWs rest with
      | ',' :: rest2 => (parseElems fuel rest2).map (fun p => (v :: p.1, p.2))
      | ']' :: rest2 => some (v :: [], rest2)
      | _ => none

end

/-- Model of serde_json::from_str on a whole input: parse one value and
require only whitespace to follow. -/
def parseJson (s : String) : Option Json :=
  match parseVal (s.length + 1) s.data with
  | some (v, rest) => if skipWs rest = [] then some v else none
  | none => none

/-- A chrono DateTime instant: seconds since the Unix epoch plus the
sub-second nanoseconds. -/
structure Ts where
  secs : Int
  nanos : Nat
  deriving DecidableEq, Repr

/-- Deserializer of the serialize.rs ts_seconds module, whose visitor is
MillisecondsTimestampVisitor: the wire integer v is split as
timestamp_opt(v / 1000, (v % 1000 * 1_000_000) as u32) with Rust
truncating division and remainder; the u32 cast wraps modulo 2^32 and
chrono rejects a nanosecond field of 2_000_000_000 or more. -/
def tsSecondsDeserialize (v : Int) : Option Ts :=
  let nsecs : Nat := ((v.tmod 1000 * 1000000).emod (2 ^ 32)).toNat
  if nsecs < 2000000000 then some ⟨v.tdiv 1000, nsecs⟩ else none

/-- Serializer of the ts_seconds module:
dt.timestamp() * 1000 + dt.timestamp_subsec_millis(). -/
def tsSecondsSerialize (t : Ts) : Int :=
  t.secs * 1000 + ((t.nanos / 1000000 : Nat) : Int)

/-- Deserializer of the option_ts_milliseconds module: same millisecond
visitor as ts_seconds, wrapped in Some; a missing field is handled by
the field's serde default attribute, not here. -/
def optionTsMillisecondsDeserialize (v : Int) : Option (Option Ts) :=
  (tsSecondsDeserialize v).map some

/-- Split a character list on whitespace, dropping empty fragments, as
Rust's str::split_whitespace does. -/
def splitWsAux : List Char → List Char → List (List Char)
  | [], acc => if acc = [] then [] else [acc.reverse]
  | c :: rest, acc =>
    if c.isWhitespace then
      if acc = [] then splitWsAux rest []
      else acc.reverse :: splitWsAux rest []
    else splitWsAux rest (c :: acc)

/-- Whitespace split of a character list (see splitWsAux). -/
def splitWhitespaceL (cs : List Char) : List (List Char) :=
  splitWsAux cs []

/-- JSON escaping of one character as serde_json's string serializer
performs it, restricted to the escapes relevant here (quote, backslash
and the common control characters). -/
def jsonEscapeChar (c : Char) : List Char :=
  if c = '"' then ['\\', '"']
  else if c = '\\' then ['\\', '\\']
  else if c = '\n' then ['\\', 'n']
  else if c = '\t' then ['\\', 't']
  else if c = '\r' then ['\\', 'r']
  else [c]

/-- JSON string literal (with surrounding quotes) produced by
serde_json::to_writer for a Rust string, over character lists. -/
def jsonQuoteL (t : List Char) : List Char :=
  '"' :: (t.flatMap jsonEscapeChar ++ ['"'])

/-- Serializer of serialize.rs string_set: for each element serde_json's
encoding of the element is written, followed by one space, and the
resulting bytes become the output string (set iteration order is
modelled by the list order). -/
def stringSetSerialize (l : List String) : String :=
  String.mk ((l.map (fun t => jsonQuoteL t.data ++ [' '])).flatten)

/-- String branch of the string_set deserializer: split the input on
whitespace and parse each fragment, wrapped in quotes, with
serde_json::from_str. -/
def stringSetDeserializeStr (s : String) : Option (List String) :=
  (splitWhitespaceL s.data).mapM
    (fun tok => (parseJson (String.mk ('"' :: (tok ++ ['"'])))).bind Json.asStr)

/-- Unit branch of the string_set deserializer (a JSON null input):
the default empty set. -/
def stringSetDeserializeNull : List String := []

/-- Deserializer of serde_with's StringWithSeparator with SpaceSeparator
for element type String (used by Post.hashtags): an empty string is the
empty collection, otherwise the input is split on single spaces. -/
def stringWithSeparatorDeStr (s : String) : List String :=
  if s = "" then [] else s.splitOn " "

/-- User presence status (websocket.rs Status). -/
inductive Status where
  | Online | Away | DoNotDisturb | Offline
  deriving DecidableEq, Repr

/-- Channel kind (api/mod.rs ChannelType), wire-encoded as the letters
O, P, D, G, I. -/
inductive ChannelType where
  | Open | Private | DirectMessage | Group | Internal
  deriving DecidableEq, Repr

/-- Post kind tag (websocket.rs PostType); the user message is the empty
string on the wire, the system kinds are snake_case names. -/
inductive PostType where
  | UserMessage | SystemEphemeral | SystemJoinChannel | SystemHeaderChange
  | SystemChannelDeleted | SystemPurposeChange | SystemDisplaynameChange
  | SystemAddToChannel | SystemRemoveFromChannel | SystemJoinTeam
  | SystemRemoveFromTeam | SystemLeaveChannel
  deriving DecidableEq, Repr

/-- Account role (api/mod.rs UserRole). -/
inductive UserRole where
  | SystemUser | SystemAdmin | ChannelUser
  deriving DecidableEq, Repr

/-- FromStr for UserRole as implemented in api/mod.rs. -/
def userRoleFromStr (s : String) : Option UserRole :=
  if s = "system_user" then some .SystemUser
  else if s = "system_admin" then some .SystemAdmin
  else if s = "channel_user" then some .ChannelUser
  else none

/-- StringWithSeparator deserializer for UserRole sets (roles fields):
split on single spaces, each fragment via FromStr. -/
def stringWithSeparatorDeRoles (s : String) : Option (List UserRole) :=
  if s = "" then some [] else (s.splitOn " ").mapM userRoleFromStr

/-- Broadcast metadata of a pushed message (websocket.rs Broadcast);
the omit_users map is modelled as an association list. -/
structure Broadcast where
  omit_users : Option (List (String × Bool))
  user_id : String
  channel_id : String
  team_id : String
  deriving DecidableEq, Repr

/-- Channel name record inside props channel mentions
(websocket.rs ChannelInfo). -/
structure ChannelInfo where
  display_name : String
  deriving DecidableEq, Repr

/-- Payload of an add_channel_member prop (websocket.rs AddChannelMember). -/
structure AddChannelMember where
  post_id : String
  user_ids : List String
  usernames : List String
  deriving DecidableEq, Repr

/-- Post properties (websocket.rs PostProps); every field is optional,
channel_mentions defaults to the empty map. -/
structure PostProps where
  override_icon_url : Option String
  old_header : Option String
  new_header : Option String
  username : Option String
  new_purpose : Option String
  old_purpose : Option String
  new_displayname : Option String
  old_displayname : Option String
  added_username : Option String
  removed_username : Option String
  add_channel_member : Option AddChannelMember
  from_webhook : Option String
  override_username : Option String
  added_user_id : Option String
  user_id : Option String
  channel_mentions : List (String × ChannelInfo)
  deriving DecidableEq, Repr

/-- A chat message (websocket.rs Post); the four timestamps go through
the ts_seconds adapter and the hashtag set through serde_with's
space-separated string adapter. -/
structure Post where
  id : String
  create_at : Ts
  update_at : Ts
  edit_at : Ts
  delete_at : Ts
  is_pinned : Bool
  user_id : String
  channel_id : String
  root_id : String
  parent_id : String
  original_id : String
  message : String
  type_ : PostType
  props : PostProps
  hashtags : List String
  pending_post_id : String
  file_ids : List String
  has_reactions : Option Bool
  deriving DecidableEq, Repr

/-- An emoji reaction (websocket.rs Reaction). -/
structure Reaction where
  user_id : String
  post_id : String
  emoji_name : String
  create_at : Ts
  deriving DecidableEq, Repr

/-- A custom emoji (websocket.rs Emoji). -/
structure Emoji where
  id : String
  create_at : Ts
  update_at : Ts
  delete_at : Ts
  creator_id : String
  name : String
  deriving DecidableEq, Repr

/-- A team (websocket.rs Team). -/
structure Team where
  id : String
  create_at : Ts
  update_at : Ts
  delete_at : Ts
  display_name : String
  name : String
  description : String
  email : String
  type_ : ChannelType
  company_name : String
  allowed_domains : String
  invite_id : String
  allow_open_invite : Bool
  scheme_id : Option String
  last_team_icon_update : Option Ts
  deriving DecidableEq, Repr

/-- Server configuration map (websocket.rs Config), a string-to-string
map modelled as an association list. -/
structure Config where
  entries : List (String × String)
  deriving DecidableEq, Repr

/-- Timezone preferences of a user (api/mod.rs Timezone), camelCase on
the wire with the boolean transmitted as a string. -/
structure Timezone where
  automatic_timezone : String
  manual_timezone : String
  use_automatic_timezone : Bool
  deriving DecidableEq, Repr

/-- An account (api/mod.rs User). -/
structure User where
  id : String
  create_at : Ts
  update_at : Ts
  delete_at : Ts
  username : String
  first_name : String
  last_name : String
  nickname : String
  email : String
  email_verified : Option Bool
  auth_data : String
  auth_service : String
  position : String
  roles : List UserRole
  locale : String
  last_password_update : Option Ts
  last_picture_update : Option Ts
  failed_attempts : Option Nat
  mfa_active : Option Bool
  timezone : Option Timezone
  deriving DecidableEq, Repr

/-- A channel (api/mod.rs Channel); this struct does not carry
deny_unknown_fields, so unknown keys are ignored when decoding it. -/
structure Channel where
  id : String
  create_at : Ts
  update_at : Ts
  delete_at : Ts
  team_id : String
  type_ : ChannelType
  display_name : String
  header : String
  last_post_at : Ts
  total_msg_count : Nat
  extra_update_at : Ts
  creator_id : String
  deriving DecidableEq, Repr

/-- Notification preferences of a channel member
(websocket.rs NotifyProps). -/
structure NotifyProps where
  desktop : Option String
  email : Option String
  ignore_channel_mentions : Option String
  mark_unread : Option String
  push : Option String
  deriving DecidableEq, Repr

/-- A channel membership (websocket.rs ChannelMember). -/
structure ChannelMember where
  channel_id : String
  user_id : String
  roles : List UserRole
  last_viewed_at : Option Ts
  msg_count : Nat
  mention_count : Nat
  notify_props : NotifyProps
  last_update_at : Option Ts
  scheme_user : Bool
  scheme_admin : Bool
  explicit_roles : List UserRole
  deriving DecidableEq, Repr

/-- The closed set of recognized server events (websocket.rs Events),
adjacently tagged on the wire by the event and data fields with
snake_case tag names and deny_unknown_fields; there is no catch-all
variant. -/
inductive Events where
  | Hello (server_version : String)
  | StatusChange (status : Status) (user_id : String)
  | EphemeralMessage (post : Post)
  | Typing (parent_id : String) (user_id : String)
  | Posted (channel_display_name : String) (channel_name : String)
      (channel_type : ChannelType) (post : Post) (sender_name : String)
      (team_id : String) (mentions : Option (List String))
      (image : Option String) (other_file : Option String)
  | ReactionAdded (reaction : Reaction)
  | PostEdited (post : Post)
  | ChannelCreated (channel_id : String) (team_id : String)
  | PreferencesChanged (preferences : String)
  | UserUpdated (user : User)
  | PostDeleted (post : Post)
  | ChannelViewed (channel_id : String)
  | PreferencesDeleted (preferences : String)
  | ChannelUpdated (channel : Channel)
  | ReactionRemoved (reaction : Reaction)
  | NewUser (user_id : String)
  | EmojiAdded (emoji : Emoji)
  | ChannelDeleted (channel_id : String) (delete_at : Option Ts)
  | DirectAdded (teammate_id : String)
  | UpdateTeam (team : Team)
  | UserAdded (team_id : String) (user_id : String)
  | UserRemoved (remover_id : String) (user_id : String)
  | LeaveTeam (team_id : String) (user_id : String)
  | ConfigChanged (config : Config)
  | GroupAdded (teammate_ids : List String)
  | DeleteTeam (team : Team)
  | ChannelMemberUpdated (channel_member : ChannelMember)
  deriving DecidableEq, Repr

/-- A pushed event message (websocket.rs MessagePush): the flattened
event plus broadcast metadata and a sequence number. -/
structure MessagePush where
  event : Events
  broadcast : Broadcast
  seq : Nat
  deriving DecidableEq, Repr

/-- Status of a command reply (websocket.rs MessageStatus). -/
inductive MessageStatus where
  | Ok
  deriving DecidableEq, Repr

/-- A command acknowledgement (websocket.rs MessageReply). -/
structure MessageReply where
  status : MessageStatus
  seq_reply : Nat
  deriving DecidableEq, Repr

/-- A decoded frame (websocket.rs Message): untagged union of a pushed
event and a reply, tried in declaration order. -/
inductive Message where
  | Push (p : MessagePush)
  | Reply (r : MessageReply)
  deriving DecidableEq, Repr

/-- The serialize.rs deserialize_embedded_json adapter (serde_with's
json::nested has the same shape): the visitor implements only
visit_str, so a JSON string has its content parsed as JSON text and
every other JSON value is a type error. -/
def deserialize_embedded_json : Json → Option Json
  | .str s => parseJson s
  | _ => none

/-- Decode a serde Option field: a missing key or a null value is None,
anything else goes through the inner decoder. -/
def decodeOptField (j : Json) (k : String) (dec : Json → Option α) :
    Option (Option α) :=
  match j.getField k with
  | none => some none
  | some .null => some none
  | some v => (dec v).map some

/-- Decode a field carrying the option_ts_milliseconds adapter together
with the serde default attribute: a missing key is None, a present
value must be an integer timestamp. -/
def decodeOptMsField (j : Json) (k : String) : Option (Option Ts) :=
  match j.getField k with
  | none => some none
  | some v => v.asInt.bind optionTsMillisecondsDeserialize

/-- Decode a required string field. -/
def getStr (j : Json) (k : String) : Option String :=
  (j.getField k).bind Json.asStr

/-- Decode a required boolean field. -/
def getBool (j : Json) (k : String) : Option Bool :=
  (j.getField k).bind Json.asBool

/-- Decode a required unsigned integer field. -/
def getNat (j : Json) (k : String) : Option Nat :=
  (j.getField k).bind Json.asNat

/-- Decode a required ts_seconds timestamp field. -/
def getTs (j : Json) (k : String) : Option Ts :=
  ((j.getField k).bind Json.asInt).bind tsSecondsDeserialize

/-- Decode a field that is double-encoded via deserialize_embedded_json
and then decoded by the inner decoder. -/
def getNested (j : Json) (k : String) (dec : Json → Option α) : Option α :=
  (((j.getField k).bind deserialize_embedded_json).bind dec)

/-- Decode a JSON array of strings. -/
def decodeStrList (j : Json) : Option (List String) :=
  j.asArr.bind (List.mapM Json.asStr)

/-- Decode the Status enum from its snake_case wire names (dnd is the
rename of DoNotDisturb). -/
def decodeStatus (j : Json) : Option Status :=
  j.asStr.bind (fun s =>
    if s = "online" then some .Online
    else if s = "away" then some .Away
    else if s = "dnd" then some .DoNotDisturb
    else if s = "offline" then some .Offline
    else none)

/-- Decode the ChannelType enum from its one-letter wire names. -/
def decodeChannelType (j : Json) : Option ChannelType :=
  j.asStr.bind (fun s =>
    if s = "O" then some .Open
    else if s = "P" then some .Private
    else if s = "D" then some .DirectMessage
    else if s = "G" then some .Group
    else if s = "I" then some .Internal
    else none)

/-- Decode the PostType enum: the user message is the empty string, the
system kinds their snake_case names. -/
def decodePostType (j : Json) : Option PostType :=
  j.asStr.bind (fun s =>
    if s = "" then some .UserMessage
    else if s = "system_ephemeral" then some .SystemEphemeral
    else if s = "system_join_channel" then some .SystemJoinChannel
    else if s = "system_header_change" then some .SystemHeaderChange
    else if s = "system_channel_deleted" then some .SystemChannelDeleted
    else if s = "system_purpose_change" then some .SystemPurposeChange
    else if s = "system_displayname_change" then some .SystemDisplaynameChange
    else if s = "system_add_to_channel" then some .SystemAddToChannel
    else if s = "system_remove_from_channel" then some .SystemRemoveFromChannel
    else if s = "system_join_team" then some .SystemJoinTeam
    else if s = "system_remove_from_team" then some .SystemRemoveFromTeam
    else if s = "system_leave_channel" then some .SystemLeaveChannel
    else none)

/-- Decode a Broadcast value (deny_unknown_fields). -/
def decodeBroadcast (j : Json) : Option Broadcast := do
  guard (j.keysAllowed ["omit_users", "user_id", "channel_id", "team_id"])
  let omit_users ← decodeOptField j "omit_users" (fun v =>
    v.asObj.bind (List.mapM (fun p => (p.2.asBool).map (fun b => (p.1, b)))))
  let user_id ← getStr j "user_id"
  let channel_id ← getStr j "channel_id"
  let team_id ← getStr j "team_id"
  pure ⟨omit_users, user_id, channel_id, team_id⟩

/-- Decode a ChannelInfo value (deny_unknown_fields). -/
def decodeChannelInfo (j : Json) : Option ChannelInfo := do
  guard (j.keysAllowed ["display_name"])
  let display_name ← getStr j "display_name"
  pure ⟨display_name⟩

/-- Decode an AddChannelMember value (deny_unknown_fields). -/
def decodeAddChannelMember (j : Json) : Option AddChannelMember := do
  guard (j.keysAllowed ["post_id", "user_ids", "usernames"])
  let post_id ← getStr j "post_id"
  let user_ids ← (j.getField "user_ids").bind decodeStrList
  let usernames ← (j.getField "usernames").bind decodeStrList
  pure ⟨post_id, user_ids, usernames⟩

/-- First half of the PostProps field decodes (split into halves only to
keep the compiled code small; the semantics is the sequential field
decode of the serde derive). -/
def decodePostPropsA (j : Json) : Option (Option String × Option String ×
    Option String × Option String × Option String × Option String ×
    Option String × Option String) := do
  let override_icon_url ← decodeOptField j "override_icon_url" Json.asStr
  let old_header ← decodeOptField j "old_header" Json.asStr
  let new_header ← decodeOptField j "new_header" Json.asStr
  let username ← decodeOptField j "username" Json.asStr
  let new_purpose ← decodeOptField j "new_purpose" Json.asStr
  let old_purpose ← decodeOptField j "old_purpose" Json.asStr
  let new_displayname ← decodeOptField j "new_displayname" Json.asStr
  let old_displayname ← decodeOptField j "old_displayname" Json.asStr
  pure (override_icon_url, old_header, new_header, username, new_purpose,
    old_purpose, new_displayname, old_displayname)

/-- Second half of the PostProps field decodes. -/
def decodePostPropsB (j : Json) : Option (Option String × Option String ×
    Option AddChannelMember × Option String × Option String ×
    Option String × Option String × List (String × ChannelInfo)) := do
  let added_username ← decodeOptField j "addedUsername" Json.asStr
  let removed_username ← decodeOptField j "removedUsername" Json.asStr
  let add_channel_member ← decodeOptField j "add_channel_member" decodeAddChannelMember
  let from_webhook ← decodeOptField j "from_webhook" Json.asStr
  let override_username ← decodeOptField j "override_username" Json.asStr
  let added_user_id ← decodeOptField j "addedUserId" Json.asStr
  let user_id ← decodeOptField j "userId" Json.asStr
  let channel_mentions ← match j.getField "channel_mentions" with
    | none => pure []
    | some v => v.asObj.bind (List.mapM (fun p =>
        (decodeChannelInfo p.2).map (fun ci => (p.1, ci))))
  pure (added_username, removed_username, add_channel_member, from_webhook,
    override_username, added_user_id, user_id, channel_mentions)

/-- Decode a PostProps value (deny_unknown_fields; several keys carry
camelCase renames, channel_mentions defaults to empty). -/
def decodePostProps (j : Json) : Option PostProps := do
  guard (j.keysAllowed ["override_icon_url", "old_header", "new_header",
    "username", "new_purpose", "old_purpose", "new_displayname",
    "old_displayname", "addedUsername", "removedUsername",
    "add_channel_member", "from_webhook", "override_username",
    "addedUserId", "userId", "channel_mentions"])
  let (override_icon_url, old_header, new_header, username, new_purpose,
    old_purpose, new_displayname, old_displayname) ← decodePostPropsA j
  let (added_username, removed_username, add_channel_member, from_webhook,
    override_username, added_user_id, user_id, channel_mentions) ←
    decodePostPropsB j
  pure ⟨override_icon_url, old_header, new_header, username, new_purpose,
    old_purpose, new_displayname, old_displayname, added_username,
    removed_username, add_channel_member, from_webhook, override_username,
    added_user_id, user_id, channel_mentions⟩

/-- First half of the Post field decodes (split into halves only to keep
the compiled code small). -/
def decodePostA (j : Json) : Option (String × Ts × Ts × Ts × Ts × Bool ×
    String × String × String) := do
  let id ← getStr j "id"
  let create_at ← getTs j "create_at"
  let update_at ← getTs j "update_at"
  let edit_at ← getTs j "edit_at"
  let delete_at ← getTs j "delete_at"
  let is_pinned ← getBool j "is_pinned"
  let user_id ← getStr j "user_id"
  let channel_id ← getStr j "channel_id"
  let root_id ← getStr j "root_id"
  pure (id, create_at, update_at, edit_at, delete_at, is_pinned, user_id,
    channel_id, root_id)

/-- Second half of the Post field decodes. -/
def decodePostB (j : Json) : Option (String × String × String × PostType ×
    PostProps × List String × String × List String × Option Bool) := do
  let parent_id ← getStr j "parent_id"
  let original_id ← getStr j "original_id"
  let message ← getStr j "message"
  let type_ ← (j.getField "type").bind decodePostType
  let props ← (j.getField "props").bind decodePostProps
  let hashtags ← (getStr j "hashtags").map stringWithSeparatorDeStr
  let pending_post_id ← getStr j "pending_post_id"
  let file_ids ← match j.getField "file_ids" with
    | none => pure []
    | some v => decodeStrList v
  let has_reactions ← decodeOptField j "has_reactions" Json.asBool
  pure (parent_id, original_id, message, type_, props, hashtags,
    pending_post_id, file_ids, has_reactions)

/-- Decode a Post value (deny_unknown_fields; timestamps via ts_seconds,
hashtags via the space-separated string adapter, file_ids defaulting to
the empty list). -/
def decodePost (j : Json) : Option Post := do
  guard (j.keysAllowed ["id", "create_at", "update_at", "edit_at",
    "delete_at", "is_pinned", "user_id", "channel_id", "root_id",
    "parent_id", "original_id", "message", "type", "props", "hashtags",
    "pending_post_id", "file_ids", "has_reactions"])
  let (id, create_at, update_at, edit_at, delete_at, is_pinned, user_id,
    channel_id, root_id) ← decodePostA j
  let (parent_id, original_id, message, type_, props, hashtags,
    pending_post_id, file_ids, has_reactions) ← decodePostB j
  pure ⟨id, create_at, update_at, edit_at, delete_at, is_pinned, user_id,
    channel_id, root_id, parent_id, original_id, message, type_, props,
    hashtags, pending_post_id, file_ids, has_reactions⟩

/-- Decode a Reaction value (deny_unknown_fields). -/
def decodeReaction (j : Json) : Option Reaction := do
  guard (j.keysAllowed ["user_id", "post_id", "emoji_name", "create_at"])
  let user_id ← getStr j "user_id"
  let post_id ← getStr j "post_id"
  let emoji_name ← getStr j "emoji_name"
  let create_at ← getTs j "create_at"
  pure ⟨user_id, post_id, emoji_name, create_at⟩

/-- Decode an Emoji value (deny_unknown_fields). -/
def decodeEmoji (j : Json) : Option Emoji := do
  guard (j.keysAllowed ["id", "create_at", "update_at", "delete_at",
    "creator_id", "name"])
  let id ← getStr j "id"
  let create_at ← getTs j "create_at"
  let update_at ← getTs j "update_at"
  let delete_at ← getTs j "delete_at"
  let creator_id ← getStr j "creator_id"
  let name ← getStr j "name"
  pure ⟨id, create_at, update_at, delete_at, creator_id, name⟩

/-- First half of the Team field decodes (split into halves only to keep
the compiled code small). -/
def decodeTeamA (j : Json) : Option (String × Ts × Ts × Ts × String ×
    String × String × String) := do
  let id ← getStr j "id"
  let create_at ← getTs j "create_at"
  let update_at ← getTs j "update_at"
  let delete_at ← getTs j "delete_at"
  let display_name ← getStr j "display_name"
  let name ← getStr j "name"
  let description ← getStr j "description"
  let email ← getStr j "email"
  pure (id, create_at, update_at, delete_at, display_name, name,
    description, email)

/-- Second half of the Team field decodes. -/
def decodeTeamB (j : Json) : Option (ChannelType × String × String ×
    String × Bool × Option String × Option Ts) := do
  let type_ ← (j.getField "type").bind decodeChannelType
  let company_name ← getStr j "company_name"
  let allowed_domains ← getStr j "allowed_domains"
  let invite_id ← getStr j "invite_id"
  let allow_open_invite ← getBool j "allow_open_invite"
  let scheme_id ← decodeOptField j "scheme_id" Json.asStr
  let last_team_icon_update ← decodeOptMsField j "last_team_icon_update"
  pure (type_, company_name, allowed_domains, invite_id,
    allow_open_invite, scheme_id, last_team_icon_update)

/-- Decode a Team value (deny_unknown_fields; scheme_id defaults to None,
last_team_icon_update via option_ts_milliseconds with default). -/
def decodeTeam (j : Json) : Option Team := do
  guard (j.keysAllowed ["id", "create_at", "update_at", "delete_at",
    "display_name", "name", "description", "email", "type",
    "company_name", "allowed_domains", "invite_id", "allow_open_invite",
    "scheme_id", "last_team_icon_update"])
  let (id, create_at, update_at, delete_at, display_name, name,
    description, email) ← decodeTeamA j
  let (type_, company_name, allowed_domains, invite_id,
    allow_open_invite, scheme_id, last_team_icon_update) ← decodeTeamB j
  pure ⟨id, create_at, update_at, delete_at, display_name, name,
    description, email, type_, company_name, allowed_domains, invite_id,
    allow_open_invite, scheme_id, last_team_icon_update⟩

/-- Decode a Config value: a JSON object whose values are all strings. -/
def decodeConfig (j : Json) : Option Config :=
  (j.asObj.bind (List.mapM (fun p => (p.2.asStr).map (fun s => (p.1, s))))).map
    Config.mk

/-- Decode a Timezone value (camelCase keys; the boolean is transmitted
as a string via display_fromstr; unknown keys are ignored). -/
def decodeTimezone (j : Json) : Option Timezone := do
  let automatic_timezone ← getStr j "automaticTimezone"
  let manual_timezone ← getStr j "manualTimezone"
  let use_str ← getStr j "useAutomaticTimezone"
  let use_automatic_timezone ←
    if use_str = "true" then some true
    else if use_str = "false" then some false
    else none
  pure ⟨automatic_timezone, manual_timezone, use_automatic_timezone⟩

/-- First third of the User field decodes (split only to keep the
compiled code small). -/
def decodeUserA (j : Json) : Option (String × Ts × Ts × Ts × String ×
    String × String) := do
  let id ← getStr j "id"
  let create_at ← getTs j "create_at"
  let update_at ← getTs j "update_at"
  let delete_at ← getTs j "delete_at"
  let username ← getStr j "username"
  let first_name ← getStr j "first_name"
  let last_name ← getStr j "last_name"
  pure (id, create_at, update_at, delete_at, username, first_name,
    last_name)

/-- Second third of the User field decodes. -/
def decodeUserB (j : Json) : Option (String × String × Option Bool ×
    String × String × String × List UserRole) := do
  let nickname ← getStr j "nickname"
  let email ← getStr j "email"
  let email_verified ← decodeOptField j "email_verified" Json.asBool
  let auth_data ← getStr j "auth_data"
  let auth_service ← getStr j "auth_service"
  let position ← getStr j "position"
  let roles ← (getStr j "roles").bind stringWithSeparatorDeRoles
  pure (nickname, email, email_verified, auth_data, auth_service,
    position, roles)

/-- Last third of the User field decodes. -/
def decodeUserC (j : Json) : Option (String × Option Ts × Option Ts ×
    Option Nat × Option Bool × Option Timezone) := do
  let locale ← getStr j "locale"
  let last_password_update ← decodeOptMsField j "last_password_update"
  let last_picture_update ← decodeOptMsField j "last_picture_update"
  let failed_attempts ← decodeOptField j "failed_attempts" Json.asNat
  let mfa_active ← decodeOptField j "mfa_active" Json.asBool
  let timezone ← decodeOptField j "timezone" decodeTimezone
  pure (locale, last_password_update, last_picture_update,
    failed_attempts, mfa_active, timezone)

/-- Decode a User value (deny_unknown_fields; roles via the
space-separated string adapter with UserRole's FromStr). -/
def decodeUser (j : Json) : Option User := do
  guard (j.keysAllowed ["id", "create_at", "update_at", "delete_at",
    "username", "first_name", "last_name", "nickname", "email",
    "email_verified", "auth_data", "auth_service", "position", "roles",
    "locale", "last_password_update", "last_picture_update",
    "failed_attempts", "mfa_active", "timezone"])
  let (id, create_at, update_at, delete_at, username, first_name,
    last_name) ← decodeUserA j
  let (nickname, email, email_verified, auth_data, auth_service,
    position, roles) ← decodeUserB j
  let (locale, last_password_update, last_picture_update,
    failed_attempts, mfa_active, timezone) ← decodeUserC j
  pure ⟨id, create_at, update_at, delete_at, username, first_name,
    last_name, nickname, email, email_verified, auth_data, auth_service,
    position, roles, locale, last_password_update, last_picture_update,
    failed_attempts, mfa_active, timezone⟩

/-- First half of the Channel field decodes (split only to keep the
compiled code small). -/
def decodeChannelA (j : Json) : Option (String × Ts × Ts × Ts × String ×
    ChannelType) := do
  let id ← getStr j "id"
  let create_at ← getTs j "create_at"
  let update_at ← getTs j "update_at"
  let delete_at ← getTs j "delete_at"
  let team_id ← getStr j "team_id"
  let type_ ← (j.getField "type").bind decodeChannelType
  pure (id, create_at, update_at, delete_at, team_id, type_)

/-- Second half of the Channel field decodes. -/
def decodeChannelB (j : Json) : Option (String × String × Ts × Nat × Ts ×
    String) := do
  let display_name ← getStr j "display_name"
  let header ← getStr j "header"
  let last_post_at ← getTs j "last_post_at"
  let total_msg_count ← getNat j "total_msg_count"
  let extra_update_at ← getTs j "extra_update_at"
  let creator_id ← getStr j "creator_id"
  pure (display_name, header, last_post_at, total_msg_count,
    extra_update_at, creator_id)

/-- Decode a Channel value (no deny_unknown_fields on this struct, so
unknown keys are ignored). -/
def decodeChannel (j : Json) : Option Channel := do
  let (id, create_at, update_at, delete_at, team_id, type_) ←
    decodeChannelA j
  let (display_name, header, last_post_at, total_msg_count,
    extra_update_at, creator_id) ← decodeChannelB j
  pure ⟨id, create_at, update_at, delete_at, team_id, type_, display_name,
    header, last_post_at, total_msg_count, extra_update_at, creator_id⟩

/-- Decode a NotifyProps value (deny_unknown_fields). -/
def decodeNotifyProps (j : Json) : Option NotifyProps := do
  guard (j.keysAllowed ["desktop", "email", "ignore_channel_mentions",
    "mark_unread", "push"])
  let desktop ← decodeOptField j "desktop" Json.asStr
  let email ← decodeOptField j "email" Json.asStr
  let ignore_channel_mentions ← decodeOptField j "ignore_channel_mentions" Json.asStr
  let mark_unread ← decodeOptField j "mark_unread" Json.asStr
  let push ← decodeOptField j "push" Json.asStr
  pure ⟨desktop, email, ignore_channel_mentions, mark_unread, push⟩

/-- First half of the ChannelMember field decodes (split only to keep the
compiled code small). -/
def decodeChannelMemberA (j : Json) : Option (String × String ×
    List UserRole × Option Ts × Nat × Nat) := do
  let channel_id ← getStr j "channel_id"
  let user_id ← getStr j "user_id"
  let roles ← (getStr j "roles").bind stringWithSeparatorDeRoles
  let last_viewed_at ← decodeOptMsField j "last_viewed_at"
  let msg_count ← getNat j "msg_count"
  let mention_count ← getNat j "mention_count"
  pure (channel_id, user_id, roles, last_viewed_at, msg_count,
    mention_count)

/-- Second half of the ChannelMember field decodes. -/
def decodeChannelMemberB (j : Json) : Option (NotifyProps × Option Ts ×
    Bool × Bool × List UserRole) := do
  let notify_props ← (j.getField "notify_props").bind decodeNotifyProps
  let last_update_at ← decodeOptMsField j "last_update_at"
  let scheme_user ← getBool j "scheme_user"
  let scheme_admin ← getBool j "scheme_admin"
  let explicit_roles ← (getStr j "explicit_roles").bind stringWithSeparatorDeRoles
  pure (notify_props, last_update_at, scheme_user, scheme_admin,
    explicit_roles)

/-- Decode a ChannelMember value (deny_unknown_fields). -/
def decodeChannelMember (j : Json) : Option ChannelMember := do
  guard (j.keysAllowed ["channel_id", "user_id", "roles", "last_viewed_at",
    "msg_count", "mention_count", "notify_props", "last_update_at",
    "scheme_user", "scheme_admin", "explicit_roles"])
  let (channel_id, user_id, roles, last_viewed_at, msg_count,
    mention_count) ← decodeChannelMemberA j
  let (notify_props, last_update_at, scheme_user, scheme_admin,
    explicit_roles) ← decodeChannelMemberB j
  pure ⟨channel_id, user_id, roles, last_viewed_at, msg_count,
    mention_count, notify_props, last_update_at, scheme_user,
    scheme_admin, explicit_roles⟩

/-- Decode the mentions field of a posted event: absent means None (serde
default); a present value is a double-encoded Option of a string
vector, so the embedded JSON null is None and an embedded array is
Some. -/
def decodeMentionsField (j : Json) : Option (Option (List String)) :=
  match j.getField "mentions" with
  | none => some none
  | some v => (deserialize_embedded_json v).bind (fun inner =>
      match inner with
      | .null => some none
      | .arr xs => (xs.mapM Json.asStr).map some
      | _ => none)

/-- Decoder of the hello event data. -/
def decHello (d : Json) : Option Events := do
  guard (d.keysAllowed ["server_version"])
  let server_version ← getStr d "server_version"
  pure (.Hello server_version)

/-- Decoder of the status_change event data. -/
def decStatusChange (d : Json) : Option Events := do
  guard (d.keysAllowed ["status", "user_id"])
  let status ← (d.getField "status").bind decodeStatus
  let user_id ← getStr d "user_id"
  pure (.StatusChange status user_id)

/-- Decoder of the ephemeral_message event data (post double-encoded). -/
def decEphemeralMessage (d : Json) : Option Events := do
  guard (d.keysAllowed ["post"])
  let post ← getNested d "post" decodePost
  pure (.EphemeralMessage post)

/-- Decoder of the typing event data. -/
def decTyping (d : Json) : Option Events := do
  guard (d.keysAllowed ["parent_id", "user_id"])
  let parent_id ← getStr d "parent_id"
  let user_id ← getStr d "user_id"
  pure (.Typing parent_id user_id)

/-- Decoder of the posted event data (post and mentions double-encoded,
otherFile a camelCase rename). -/
def decPosted (d : Json) : Option Events := do
  guard (d.keysAllowed ["channel_display_name", "channel_name",
    "channel_type", "post", "sender_name", "team_id", "mentions",
    "image", "otherFile"])
  let channel_display_name ← getStr d "channel_display_name"
  let channel_name ← getStr d "channel_name"
  let channel_type ← (d.getField "channel_type").bind decodeChannelType
  let post ← getNested d "post" decodePost
  let sender_name ← getStr d "sender_name"
  let team_id ← getStr d "team_id"
  let mentions ← decodeMentionsField d
  let image ← decodeOptField d "image" Json.asStr
  let other_file ← decodeOptField d "otherFile" Json.asStr
  pure (.Posted channel_display_name channel_name channel_type post
    sender_name team_id mentions image other_file)

/-- Decoder of the reaction_added event data (reaction double-encoded). -/
def decReactionAdded (d : Json) : Option Events := do
  guard (d.keysAllowed ["reaction"])
  let reaction ← getNested d "reaction" decodeReaction
  pure (.ReactionAdded reaction)

/-- Decoder of the post_edited event data (post double-encoded). -/
def decPostEdited (d : Json) : Option Events := do
  guard (d.keysAllowed ["post"])
  let post ← getNested d "post" decodePost
  pure (.PostEdited post)

/-- Decoder of the channel_created event data. -/
def decChannelCreated (d : Json) : Option Events := do
  guard (d.keysAllowed ["channel_id", "team_id"])
  let channel_id ← getStr d "channel_id"
  let team_id ← getStr d "team_id"
  pure (.ChannelCreated channel_id team_id)

/-- Decoder of the preferences_changed event data. -/
def decPreferencesChanged (d : Json) : Option Events := do
  guard (d.keysAllowed ["preferences"])
  let preferences ← getStr d "preferences"
  pure (.PreferencesChanged preferences)

/-- Decoder of the user_updated event data (user a plain object). -/
def decUserUpdated (d : Json) : Option Events := do
  guard (d.keysAllowed ["user"])
  let user ← (d.getField "user").bind decodeUser
  pure (.UserUpdated user)

/-- Decoder of the post_deleted event data (post double-encoded). -/
def decPostDeleted (d : Json) : Option Events := do
  guard (d.keysAllowed ["post"])
  let post ← getNested d "post" decodePost
  pure (.PostDeleted post)

/-- Decoder of the channel_viewed event data. -/
def decChannelViewed (d : Json) : Option Events := do
  guard (d.keysAllowed ["channel_id"])
  let channel_id ← getStr d "channel_id"
  pure (.ChannelViewed channel_id)

/-- Decoder of the preferences_deleted event data. -/
def decPreferencesDeleted (d : Json) : Option Events := do
  guard (d.keysAllowed ["preferences"])
  let preferences ← getStr d "preferences"
  pure (.PreferencesDeleted preferences)

/-- Decoder of the channel_updated event data (channel double-encoded). -/
def decChannelUpdated (d : Json) : Option Events := do
  guard (d.keysAllowed ["channel"])
  let channel ← getNested d "channel" decodeChannel
  pure (.ChannelUpdated channel)

/-- Decoder of the reaction_removed event data (reaction double-encoded). -/
def decReactionRemoved (d : Json) : Option Events := do
  guard (d.keysAllowed ["reaction"])
  let reaction ← getNested d "reaction" decodeReaction
  pure (.ReactionRemoved reaction)

/-- Decoder of the new_user event data. -/
def decNewUser (d : Json) : Option Events := do
  guard (d.keysAllowed ["user_id"])
  let user_id ← getStr d "user_id"
  pure (.NewUser user_id)

/-- Decoder of the emoji_added event data (emoji double-encoded). -/
def decEmojiAdded (d : Json) : Option Events := do
  guard (d.keysAllowed ["emoji"])
  let emoji ← getNested d "emoji" decodeEmoji
  pure (.EmojiAdded emoji)

/-- Decoder of the channel_deleted event data (delete_at via
option_ts_milliseconds with default). -/
def decChannelDeleted (d : Json) : Option Events := do
  guard (d.keysAllowed ["channel_id", "delete_at"])
  let channel_id ← getStr d "channel_id"
  let delete_at ← decodeOptMsField d "delete_at"
  pure (.ChannelDeleted channel_id delete_at)

/-- Decoder of the direct_added event data. -/
def decDirectAdded (d : Json) : Option Events := do
  guard (d.keysAllowed ["teammate_id"])
  let teammate_id ← getStr d "teammate_id"
  pure (.DirectAdded teammate_id)

/-- Decoder of the update_team event data (team double-encoded). -/
def decUpdateTeam (d : Json) : Option Events := do
  guard (d.keysAllowed ["team"])
  let team ← getNested d "team" decodeTeam
  pure (.UpdateTeam team)

/-- Decoder of the user_added event data. -/
def decUserAdded (d : Json) : Option Events := do
  guard (d.keysAllowed ["team_id", "user_id"])
  let team_id ← getStr d "team_id"
  let user_id ← getStr d "user_id"
  pure (.UserAdded team_id user_id)

/-- Decoder of the user_removed event data. -/
def decUserRemoved (d : Json) : Option Events := do
  guard (d.keysAllowed ["remover_id", "user_id"])
  let remover_id ← getStr d "remover_id"
  let user_id ← getStr d "user_id"
  pure (.UserRemoved remover_id user_id)

/-- Decoder of the leave_team event data. -/
def decLeaveTeam (d : Json) : Option Events := do
  guard (d.keysAllowed ["team_id", "user_id"])
  let team_id ← getStr d "team_id"
  let user_id ← getStr d "user_id"
  pure (.LeaveTeam team_id user_id)

/-- Decoder of the config_changed event data. -/
def decConfigChanged (d : Json) : Option Events := do
  guard (d.keysAllowed ["config"])
  let config ← (d.getField "config").bind decodeConfig
  pure (.ConfigChanged config)

/-- Decoder of the group_added event data (id list double-encoded). -/
def decGroupAdded (d : Json) : Option Events := do
  guard (d.keysAllowed ["teammate_ids"])
  let teammate_ids ← getNested d "teammate_ids" decodeStrList
  pure (.GroupAdded teammate_ids)

/-- Decoder of the delete_team event data (team double-encoded). -/
def decDeleteTeam (d : Json) : Option Events := do
  guard (d.keysAllowed ["team"])
  let team ← getNested d "team" decodeTeam
  pure (.DeleteTeam team)

/-- Decoder of the channel_member_updated event data (channelMember a
camelCase rename, double-encoded). -/
def decChannelMemberUpdated (d : Json) : Option Events := do
  guard (d.keysAllowed ["channelMember"])
  let channel_member ← getNested d "channelMember" decodeChannelMember
  pure (.ChannelMemberUpdated channel_member)

/-- The closed tag table of the Events enum: each recognized snake_case
tag paired with the decoder of its data payload, in declaration order;
the serde derive has no catch-all, so a tag outside this table is a
decode error. -/
def tagDecoders : List (String × (Json → Option Events)) :=
  [("hello", decHello),
   ("status_change", decStatusChange),
   ("ephemeral_message", decEphemeralMessage),
   ("typing", decTyping),
   ("posted", decPosted),
   ("reaction_added", decReactionAdded),
   ("post_edited", decPostEdited),
   ("channel_created", decChannelCreated),
   ("preferences_changed", decPreferencesChanged),
   ("user_updated", decUserUpdated),
   ("post_deleted", decPostDeleted),
   ("channel_viewed", decChannelViewed),
   ("preferences_deleted", decPreferencesDeleted),
   ("channel_updated", decChannelUpdated),
   ("reaction_removed", decReactionRemoved),
   ("new_user", decNewUser),
   ("emoji_added", decEmojiAdded),
   ("channel_deleted", decChannelDeleted),
   ("direct_added", decDirectAdded),
   ("update_team", decUpdateTeam),
   ("user_added", decUserAdded),
   ("user_removed", decUserRemoved),
   ("leave_team", decLeaveTeam),
   ("config_changed", decConfigChanged),
   ("group_added", decGroupAdded),
   ("delete_team", decDeleteTeam),
   ("channel_member_updated", decChannelMemberUpdated)]

/-- The recognized event tags: the keys of the tag table. -/
def recognizedTags : List String := tagDecoders.map (·.1)

/-- Decode an event from its tag and data: look the tag up in the closed
table and run the matching data decoder; an unrecognized tag is a
decode failure (the enum has no ignored variant). -/
def decodeEvents (tag : String) (data : Json) : Option Events :=
  ((tagDecoders.find? (fun p => p.1 == tag)).map (·.2)).bind (fun dec => dec data)

/-- Decode a MessagePush frame: the outer struct consumes broadcast and
seq, the flattened adjacently-tagged Events enum consumes event and
data and, carrying deny_unknown_fields, rejects any further key. -/
def decodeMessagePush (j : Json) : Option MessagePush := do
  guard (j.keysAllowed ["event", "data", "broadcast", "seq"])
  let broadcast ← (j.getField "broadcast").bind decodeBroadcast
  let seq ← getNat j "seq"
  let tag ← getStr j "event"
  let data ← j.getField "data"
  let event ← decodeEvents tag data
  pure ⟨event, broadcast, seq⟩

/-- Decode the MessageStatus enum (SCREAMING_SNAKE_CASE wire name). -/
def decodeMessageStatus (j : Json) : Option MessageStatus :=
  j.asStr.bind (fun s => if s = "OK" then some .Ok else none)

/-- Decode a MessageReply frame (this struct has no deny_unknown_fields,
so extra keys are ignored). -/
def decodeMessageReply (j : Json) : Option MessageReply := do
  let status ← (j.getField "status").bind decodeMessageStatus
  let seq_reply ← getNat j "seq_reply"
  pure ⟨status, seq_reply⟩

/-- Decode a frame into the untagged Message union: the push shape is
tried first, then the reply shape, as in the derive's declaration
order. -/
def decodeMessage (j : Json) : Option Message :=
  ((decodeMessagePush j).map Message.Push) <|>
    ((decodeMessageReply j).map Message.Reply)

/-- Calendar date of a day count since the Unix epoch (the standard
era-based civil-calendar conversion, used to model chrono). -/
def civilFromDays (z0 : Int) : Int × Int × Int :=
  let z := z0 + 719468
  let era := z.ediv 146097
  let doe := z - era * 146097
  let yoe := (doe - doe.ediv 1460 + doe.ediv 36524 - doe.ediv 146096).ediv 365
  let y := yoe + era * 400
  let doy := doe - (365 * yoe + yoe.ediv 4 - yoe.ediv 100)
  let mp := (5 * doy + 2).ediv 153
  let d := doy - (153 * mp + 2).ediv 5 + 1
  let m := mp + (if mp < 10 then 3 else -9)
  (y + (if m ≤ 2 then 1 else 0), m, d)

/-- Day count since the Unix epoch of a calendar date (inverse of
civilFromDays). -/
def daysFromCivil (y0 m d : Int) : Int :=
  let y := y0 - (if m ≤ 2 then 1 else 0)
  let era := y.ediv 400
  let yoe := y - era * 400
  let doy := (153 * (m + (if 2 < m then -3 else 9)) + 2).ediv 5 + d - 1
  let doe := yoe * 365 + yoe.ediv 4 - yoe.ediv 100 + doy
  era * 146097 + doe - 719468

/-- Day count of the last Sunday of a 31-day month (day 0 of the epoch,
1970-01-01, was a Thursday). -/
def lastSundayOf (y m : Int) : Int :=
  let d31 := daysFromCivil y m 31
  d31 - (d31 + 4).emod 7

/-- UTC instant at which summer time starts in year y under the EU rule:
01:00 UTC on the last Sunday of March. -/
def dstStartSecs (y : Int) : Int := lastSundayOf y 3 * 86400 + 3600

/-- UTC instant at which summer time ends in year y under the EU rule:
01:00 UTC on the last Sunday of October. -/
def dstEndSecs (y : Int) : Int := lastSundayOf y 10 * 86400 + 3600

/-- Modelled from chrono-tz (an external collaborator): the UTC offset of
Europe/Berlin at a given instant, CEST (+2h) inside the EU summer-time
window and CET (+1h) outside it. -/
def berlinOffsetSecs (secs : Int) : Int :=
  let y := (civilFromDays (secs.ediv 86400)).1
  if dstStartSecs y ≤ secs ∧ secs < dstEndSecs y then 7200 else 3600

/-- Two-digit zero padding for clock components. -/
def pad2 (n : Nat) : String :=
  if n < 10 then "0" ++ toString n else toString n

/-- Formatting of post.create_at.with_timezone(Berlin) with the pattern
used by react_to_message: hours, minutes and seconds, each two
digits. -/
def formatBerlinHMS (t : Ts) : String :=
  let lsecs := t.secs + berlinOffsetSecs t.secs
  let sod := (lsecs.emod 86400).toNat
  pad2 (sod / 3600) ++ ":" ++ pad2 (sod % 3600 / 60) ++ ":" ++ pad2 (sod % 60)

/-- Per-connection handler state (websocket_client.rs WsClient), without
the transport handle; the timeout field holds the handle of the
currently stored idle-expiry timer as an identifier. -/
structure WsClient where
  timeout : Option Nat
  own_id : Option String
  token : String
  servername : String
  mobile_number : String
  deriving DecidableEq, Repr

/-- Outcome of one react_to_message invocation: a normal return with the
possibly updated client and the notification text handed to the
delivery thread, a panic (the own-id unwrap), or the execution of a
channel-type match arm that does not exist in the source (the match in
react_to_message covers only DirectMessage, Open and Private out of
the five ChannelType variants, rustc error E0004). -/
inductive ReactResult where
  | ok (client : WsClient) (notification : Option String)
  | panicked
  | nonexhaustiveMatch
  deriving DecidableEq, Repr

/-- HashMap::get on the omit_users map, modelled on the association
list. -/
def lookupOmit (omitMap : List (String × Bool)) (own : String) : Option Bool :=
  (omitMap.find? (fun p => p.1 == own)).map (·.2)

/-- Core of main.rs react_to_message on an already decoded push message:
first the broadcast suppression check (only when the own id is known),
then the event match with its Hello and Posted arms. -/
def reactToPush (c : WsClient) (m : MessagePush) : ReactResult :=
  let omitted :=
    match c.own_id, m.broadcast.omit_users with
    | some own, some omitMap => (lookupOmit omitMap own).getD false
    | _, _ => false
  if omitted then .ok c none
  else
    match m.event with
    | .Hello _ => .ok { c with own_id := some m.broadcast.user_id } none
    | .Posted channel_display_name _ channel_type post sender_name _
        mentions _ _ =>
      match mentions with
      | none => .ok c none
      | some ms =>
        match c.own_id with
        | none => .panicked
        | some own =>
          if own ∈ ms then
            let localtime := formatBerlinHMS post.create_at
            match channel_type with
            | .DirectMessage => .ok c (some (c.servername ++ " " ++
                sender_name ++ ":\n" ++ post.message ++ "\n@" ++ localtime))
            | .Open => .ok c (some (c.servername ++ " " ++ sender_name ++
                " in " ++ channel_display_name ++ ":\n" ++ post.message ++
                "\n@" ++ localtime))
            | .Private => .ok c (some (c.servername ++ " " ++ sender_name ++
                " in " ++ channel_display_name ++ ":\n" ++ post.message ++
                "\n@" ++ localtime))
            | .Group => .nonexhaustiveMatch
            | .Internal => .nonexhaustiveMatch
          else .ok c none
    | _ => .ok c none

/-- main.rs react_to_message on a raw frame: parse the push shape; a
parse failure is logged and the frame dropped, leaving the client
unchanged. -/
def react_to_message (c : WsClient) (raw : Json) : ReactResult :=
  match decodeMessagePush raw with
  | some m => reactToPush c m
  | none => .ok c none

/-- Timer token of the keepalive probe (websocket_client.rs PING). -/
def PING : Nat := 1

/-- Timer token of the idle expiry (websocket_client.rs EXPIRE). -/
def EXPIRE : Nat := 2

/-- Keepalive interval in milliseconds (PING_TIMEOUT). -/
def PING_TIMEOUT : Nat := 10000

/-- Idle-expiry interval in milliseconds (EXPIRE_TIMEOUT). -/
def EXPIRE_TIMEOUT : Nat := 60000

/-- The fixed liveness-probe payload (PING_PONG). -/
def PING_PONG : String := "mattermost-client"

/-- Closure code of a connection shutdown. -/
inductive CloseCode where
  | away
  | protocolError
  | internalError
  deriving DecidableEq, Repr

/-- State of one open connection: the timeouts outstanding in the ws
event loop as (handle, token) pairs, the handle stored in
WsClient.timeout, a fresh-handle counter, and the closure state. -/
structure ConnState where
  scheduled : List (Nat × Nat)
  clientTimeout : Option Nat
  nextId : Nat
  closed : Option CloseCode
  deriving DecidableEq, Repr

/-- Connection state before on_open runs. -/
def initConn : ConnState := ⟨[], none, 0, none⟩

/-- The on_new_timeout callback: for an EXPIRE timeout the previously
stored handle, if any, is cancelled (removed from the loop's schedule)
and the new handle stored; other tokens are left untouched. -/
def onNewTimeout (s : ConnState) (tok id : Nat) : ConnState :=
  if tok = EXPIRE then
    match s.clientTimeout with
    | some old =>
      { s with scheduled := s.scheduled.filter (fun p => p.1 != old),
               clientTimeout := some id }
    | none => { s with clientTimeout := some id }
  else s

/-- One Sender::timeout call as executed by the ws event loop: a fresh
handle is scheduled for the token and on_new_timeout is invoked with
it. -/
def armTimeout (s : ConnState) (tok : Nat) : ConnState :=
  let id := s.nextId
  let s1 := { s with scheduled := s.scheduled ++ [(id, tok)],
                     nextId := s.nextId + 1 }
  onNewTimeout s1 tok id

/-- Externally visible happenings on one connection: the open handshake,
an inbound pong frame with its payload, an inbound frame with a
reserved bit set, and the firing of a scheduled timeout handle. -/
inductive WsEvent where
  | connOpen
  | pongFrame (payload : String)
  | rsvFrame
  | fire (id : Nat)
  deriving DecidableEq, Repr

/-- One step of the connection state machine, combining the ws event
loop semantics with the Handler implementation of WsClient: on_open
arms the keepalive and idle-expiry timers, a matching pong re-arms the
idle expiry, a reserved-bit frame aborts with a protocol error, a
firing PING timeout re-arms itself and a firing EXPIRE timeout closes
the connection with the Away code. -/
def stepConn (s : ConnState) (e : WsEvent) : ConnState :=
  if s.closed.isSome then s
  else
    match e with
    | .connOpen => armTimeout (armTimeout s PING) EXPIRE
    | .pongFrame payload =>
      if payload = PING_PONG then armTimeout s EXPIRE else s
    | .rsvFrame => { s with scheduled := [], closed := some .protocolError }
    | .fire id =>
      match s.scheduled.find? (fun p => p.1 == id) with
      | none => s
      | some entry =>
        let s1 := { s with scheduled := s.scheduled.filter (fun p => p.1 != id) }
        if entry.2 = PING then armTimeout s1 PING
        else if entry.2 = EXPIRE then
          { s1 with scheduled := [], closed := some .away }
        else { s1 with scheduled := [], closed := some .internalError }

/-- Run the connection state machine over a list of events. -/
def runConn (evs : List WsEvent) : ConnState :=
  evs.foldl stepConn initConn

/-- Invariant of a reachable connection state: every scheduled timeout
carries one of the two tokens; a scheduled EXPIRE timeout is exactly
the one whose handle is stored in the client (so at most one is ever
outstanding); handles are fresh and pairwise distinct; and a closed
connection has no scheduled timeouts left. -/
def ConnInv (s : ConnState) : Prop :=
  (∀ p ∈ s.scheduled, p.2 = PING ∨ p.2 = EXPIRE) ∧
  (∀ p ∈ s.scheduled, p.2 = EXPIRE → s.clientTimeout = some p.1) ∧
  (∀ p ∈ s.scheduled, s.clientTimeout = some p.1 → p.2 = EXPIRE) ∧
  (∀ p ∈ s.scheduled, p.1 < s.nextId) ∧
  (s.scheduled.map Prod.fst).Nodup ∧
  (∀ i, s.clientTimeout = some i → i < s.nextId) ∧
  (s.closed.isSome → s.scheduled = [])

/-- Termination of one ws::connect call: the event loop either returned
cleanly or with an error. -/
inductive ConnectOutcome where
  | closedCleanly
  | failed (error : String)
  deriving DecidableEq, Repr

/-- What one run of the per-server session thread did. -/
structure SessionRun where
  connectCalls : Nat
  loggedConnectError : Bool
  returned : Bool
  deriving DecidableEq, Repr

/-- main.rs spawn_server_handle_thread, applied to the schedule of
outcomes successive connection attempts would see: the thread parses
the endpoint url, calls ws::connect exactly once, prints the error if
that single call failed, and returns Ok — there is no loop, backoff or
reconnection in its body. -/
def spawn_server_handle_thread (outcomes : List ConnectOutcome) : SessionRun :=
  let result := outcomes.headD .closedCleanly
  { connectCalls := 1,
    loggedConnectError := match result with
      | .failed _ => true
      | .closedCleanly => false,
    returned := true }

/-- Sample decoded post used by the concrete theorems; its create_at
instant 1700000000000 ms is 2023-11-14 22:13:20 UTC, outside the
summer-time window. -/
def samplePost : Post :=
  ⟨"p1", ⟨1700000000, 0⟩, ⟨1700000000, 0⟩, ⟨0, 0⟩, ⟨0, 0⟩, false, "u2",
   "c1", "", "", "", "hi", .UserMessage,
   ⟨none, none, none, none, none, none, none, none, none, none, none,
    none, none, none, none, []⟩, [], "", [], none⟩

/-- The JSON text of samplePost, as carried inside the double-encoded
post field of a legacy posted frame. -/
def samplePostText : String :=
  "\x7b\"id\":\"p1\",\"create_at\":1700000000000,\"update_at\":1700000000000,\"edit_at\":0,\"delete_at\":0,\"is_pinned\":false,\"user_id\":\"u2\",\"channel_id\":\"c1\",\"root_id\":\"\",\"parent_id\":\"\",\"original_id\":\"\",\"message\":\"hi\",\"type\":\"\",\"props\":\x7b\x7d,\"hashtags\":\"\",\"pending_post_id\":\"\"\x7d"

/-- The JSON object form of samplePost, as a later protocol revision
would carry it directly. -/
def samplePostJson : Json :=
  Json.obj [("id", .str "p1"), ("create_at", .num 1700000000000),
    ("update_at", .num 1700000000000), ("edit_at", .num 0),
    ("delete_at", .num 0), ("is_pinned", .bool false),
    ("user_id", .str "u2"), ("channel_id", .str "c1"),
    ("root_id", .str ""), ("parent_id", .str ""),
    ("original_id", .str ""), ("message", .str "hi"), ("type", .str ""),
    ("props", .obj []), ("hashtags", .str ""),
    ("pending_post_id", .str "")]

/-- Sample broadcast JSON of a frame. -/
def sampleBroadcastJson : Json :=
  Json.obj [("omit_users", .null), ("user_id", .str "u2"),
    ("channel_id", .str "c1"), ("team_id", .str "t1")]

/-- Sample decoded broadcast matching sampleBroadcastJson. -/
def sampleBroadcast : Broadcast := ⟨none, "u2", "c1", "t1"⟩

/-- A push frame with the given event tag and data around the sample
broadcast. -/
def mkPushFrame (tag : String) (data : Json) : Json :=
  Json.obj [("event", .str tag), ("data", data),
    ("broadcast", sampleBroadcastJson), ("seq", .num 1)]

/-- The posted event data with the post field double-encoded as a JSON
string (the legacy wire form). -/
def postedDataStrForm : Json :=
  Json.obj [("channel_display_name", .str "Town"),
    ("channel_name", .str "town-square"), ("channel_type", .str "O"),
    ("post", .str samplePostText), ("sender_name", .str "alice"),
    ("team_id", .str "t1"), ("mentions", .str "[\"U1\"]")]

/-- The same posted event data with the post field carried directly as a
JSON object. -/
def postedDataObjForm : Json :=
  Json.obj [("channel_display_name", .str "Town"),
    ("channel_name", .str "town-square"), ("channel_type", .str "O"),
    ("post", samplePostJson), ("sender_name", .str "alice"),
    ("team_id", .str "t1"), ("mentions", .str "[\"U1\"]")]

/-- The frame carrying postedDataStrForm. -/
def strFormFrame : Json := mkPushFrame "posted" postedDataStrForm

/-- The frame carrying postedDataObjForm. -/
def objFormFrame : Json := mkPushFrame "posted" postedDataObjForm

/-- The decoded push expected from strFormFrame. -/
def expectedPostedPush : MessagePush :=
  ⟨.Posted "Town" "town-square" .Open samplePost "alice" "t1"
    (some ["U1"]) none none, sampleBroadcast, 1⟩

/-- A client whose own id has been learned. -/
def client1 : WsClient := ⟨none, some "U1", "tok", "S", "num"⟩

/-- A do-not-disturb status change for the own account of client1. -/
def dndStatusMsg : MessagePush :=
  ⟨.StatusChange .DoNotDisturb "U1", ⟨none, "U1", "", ""⟩, 2⟩

/-- A direct-message posted event mentioning the own account of
client1. -/
def mentionPostedMsg : MessagePush :=
  ⟨.Posted "Town" "town-square" .DirectMessage samplePost "alice" "t1"
    (some ["U1"]) none none, sampleBroadcast, 7⟩

/-- The same posted event in an open channel. -/
def openPostedMsg : MessagePush :=
  ⟨.Posted "Town" "town-square" .Open samplePost "alice" "t1"
    (some ["U1"]) none none, sampleBroadcast, 7⟩

/-- The same posted event in a group channel. -/
def groupPostedMsg : MessagePush :=
  ⟨.Posted "Town" "town-square" .Group samplePost "alice" "t1"
    (some ["U1"]) none none, sampleBroadcast, 8⟩

/-- A client that has not yet handled a hello event. -/
def client0 : WsClient := ⟨none, none, "tok", "S", "num"⟩

/-- A hello message whose broadcast suppresses U1. -/
def suppressedHello : MessagePush :=
  ⟨.Hello "5.0.0", ⟨some [("U1", true)], "U9", "", ""⟩, 1⟩

/-- C8 counterexample: the wire value 1500 on a Post timestamp field
decodes to 1 second and 500 ms after the epoch, not to 1500 seconds
after the epoch, refuting the seconds-since-epoch reading of the
ts_seconds adapter. -/
theorem c8_counterexample :
    tsSecondsDeserialize 1500 = some ⟨1, 500000000⟩ ∧
    (⟨1, 500000000⟩ : Ts) ≠ (⟨1500, 0⟩ : Ts) := by decide

/-- C8 amended: the ts_seconds adapter of the Post timestamp fields
interprets the wire integer t as milliseconds since the epoch; for
every non-negative t the decoded instant is t ms after the epoch with
zero sub-millisecond precision, and re-encoding reproduces t at the
millisecond scale. -/
theorem c8_millisecond_scale (t : Int) (h : 0 ≤ t) :
    tsSecondsDeserialize t =
      some ⟨t.tdiv 1000, ((t.tmod 1000) * 1000000).toNat⟩ ∧
    tsSecondsSerialize ⟨t.tdiv 1000, ((t.tmod 1000) * 1000000).toNat⟩ = t := by
  have h1000 : (0 : Int) < 1000 := by norm_num
  have hmodnn : 0 ≤ t.tmod 1000 := Int.tmod_nonneg 1000 h
  have hmodlt : t.tmod 1000 < 1000 := by
    have := Int.tmod_lt_of_pos t h1000
    exact this
  have hnn : 0 ≤ t.tmod 1000 * 1000000 := by positivity
  have hlt : t.tmod 1000 * 1000000 < 2 ^ 32 := by nlinarith
  have hrw : (t.tmod 1000 * 1000000).emod (2 ^ 32) = t.tmod 1000 * 1000000 :=
    Int.emod_eq_of_lt hnn hlt
  constructor
  · simp only [tsSecondsDeserialize, hrw]
    rw [if_pos]
    omega
  · simp only [tsSecondsSerialize]
    have hdup : ((t.tmod 1000) * 1000000).toNat / 1000000 = (t.tmod 1000).toNat := by
      omega
    rw [hdup]
    have hcast : ((t.tmod 1000).toNat : Int) = t.tmod 1000 := by omega
    rw [hcast]
    have := Int.tdiv_add_tmod t 1000
    linarith

/-- C8 witness: the amended property at the documented example wire
value 1431684000000. -/
theorem c8_millisecond_scale_witness :
    tsSecondsDeserialize 1431684000000 =
      some ⟨(1431684000000 : Int).tdiv 1000,
        (((1431684000000 : Int).tmod 1000) * 1000000).toNat⟩ ∧
    tsSecondsSerialize ⟨(1431684000000 : Int).tdiv 1000,
        (((1431684000000 : Int).tmod 1000) * 1000000).toNat⟩ =
      1431684000000 :=
  c8_millisecond_scale 1431684000000 (by norm_num)

/-- C2 counterexample: with two consecutive transport failures scheduled,
the session thread performs exactly one connection attempt and returns,
not the two attempts the unbounded backoff-and-reconnect cycle would
make, and it terminates rather than looping forever. -/
theorem c2_counterexample :
    (spawn_server_handle_thread [.failed "reset", .failed "reset"]).connectCalls = 1 ∧
    (spawn_server_handle_thread [.failed "reset", .failed "reset"]).returned = true ∧
    (spawn_server_handle_thread [.failed "reset", .failed "reset"]).connectCalls ≠ 2 := by
  refine ⟨rfl, rfl, ?_⟩
  decide

/-- C2 amended: for every schedule of connection outcomes the session
thread calls ws::connect exactly once and then returns; there is no
backoff or reconnection after a termination of any kind. -/
theorem c2_single_attempt (outcomes : List ConnectOutcome) :
    (spawn_server_handle_thread outcomes).connectCalls = 1 ∧
    (spawn_server_handle_thread outcomes).returned = true :=
  ⟨rfl, rfl⟩

/-- A tag outside the closed table is found by no table entry. -/
theorem find?_tagDecoders_eq_none {tag : String} (h : tag ∉ recognizedTags) :
    tagDecoders.find? (fun p => p.1 == tag) = none := by
  rw [List.find?_eq_none]
  intro x hx hbeq
  apply h
  have hx1 : x.1 = tag := by simpa using hbeq
  have hmem : x.1 ∈ recognizedTags := List.mem_map_of_mem _ hx
  rwa [hx1] at hmem

/-- An unrecognized event tag makes the Events decode fail, whatever the
data payload is. -/
theorem decodeEvents_unknown (tag : String) (data : Json)
    (h : tag ∉ recognizedTags) : decodeEvents tag data = none := by
  unfold decodeEvents
  rw [find?_tagDecoders_eq_none h]
  rfl

/-- Evaluation of the push decode on a frame built by mkPushFrame: all
outer fields are fixed, so the result is exactly the event decode bound
into the push constructor. -/
theorem decodeMessagePush_mkPushFrame (tag : String) (data : Json) :
    decodeMessagePush (mkPushFrame tag data) =
      (decodeEvents tag data).bind (fun ev => some ⟨ev, sampleBroadcast, 1⟩) :=
  rfl

/-- A frame built by mkPushFrame never matches the reply shape (it has no
status field). -/
theorem decodeMessageReply_mkPushFrame (tag : String) (data : Json) :
    decodeMessageReply (mkPushFrame tag data) = none :=
  rfl

/-- C1 counterexample: a frame whose event tag is outside the recognized
set fails to decode; it does not decode to any ignored variant (the
Events enum has none). -/
theorem c1_counterexample :
    decodeMessage (mkPushFrame "reaction_cleared" (Json.obj [])) = none := by
  decide

/-- C1 amended: for every event tag outside the recognized closed set,
decoding the frame fails for any data payload, and react_to_message
drops the undecodable frame, leaving the client unchanged and emitting
no notification (the failure is logged, never fatal to the
connection). -/
theorem c1_unknown_tag_fails (tag : String) (data : Json)
    (h : tag ∉ recognizedTags) :
    decodeMessage (mkPushFrame tag data) = none ∧
    ∀ c : WsClient, react_to_message c (mkPushFrame tag data) = .ok c none := by
  have hev := decodeEvents_unknown tag data h
  have hpush : decodeMessagePush (mkPushFrame tag data) = none := by
    rw [decodeMessagePush_mkPushFrame, hev]
    rfl
  constructor
  · unfold decodeMessage
    rw [hpush, decodeMessageReply_mkPushFrame]
    rfl
  · intro c
    unfold react_to_message
    rw [hpush]

/-- C1 witness: the amended property at a concrete unrecognized tag. -/
theorem c1_unknown_tag_fails_witness :
    decodeMessage (mkPushFrame "user_activation_updated" (Json.obj [])) = none ∧
    ∀ c : WsClient,
      react_to_message c (mkPushFrame "user_activation_updated" (Json.obj [])) =
        .ok c none :=
  c1_unknown_tag_fails "user_activation_updated" (Json.obj []) (by decide)

/-- C10: whenever the own account id is still unset, handling a decoded
posted message whose mentions field is present panics (the unwrap of
None in react_to_message), for every payload, channel type and mention
list, including the empty one. -/
theorem c10_unset_own_id_panics (c : WsClient) (b : Broadcast) (s : Nat)
    (cdn cn : String) (ct : ChannelType) (post : Post) (sender tid : String)
    (ms : List String) (img other : Option String) (h : c.own_id = none) :
    reactToPush c ⟨.Posted cdn cn ct post sender tid (some ms) img other, b, s⟩ =
      .panicked := by
  simp [reactToPush, h]

/-- C10 witness: the panic at a concrete fresh client and posted
message. -/
theorem c10_unset_own_id_panics_witness :
    reactToPush client0 ⟨.Posted "Town" "town-square" .Open samplePost
      "alice" "t1" (some []) none none, sampleBroadcast, 7⟩ = .panicked :=
  c10_unset_own_id_panics client0 sampleBroadcast 7 "Town" "town-square"
    .Open samplePost "alice" "t1" [] none none rfl

/-- C5: when the suppression map of an envelope marks the own account id
true, handling produces no notification and leaves the state unchanged,
whatever the event kind (even hello), mention list or channel type; the
check is the first thing react_to_message does after decoding. -/
theorem c5_suppression_precedes_all (c : WsClient) (m : MessagePush)
    (own : String) (omitMap : List (String × Bool))
    (h1 : c.own_id = some own)
    (h2 : m.broadcast.omit_users = some omitMap)
    (h3 : lookupOmit omitMap own = some true) :
    reactToPush c m = .ok c none := by
  simp [reactToPush, h1, h2, h3]

/-- C5 witness: the suppressed hello at the concrete client1 produces no
notification and does not even record the broadcast user id. -/
theorem c5_suppression_precedes_all_witness :
    reactToPush client1 suppressedHello = .ok client1 none :=
  c5_suppression_precedes_all client1 suppressedHello "U1" [("U1", true)]
    rfl rfl rfl

/-- C3 counterexample: client1 handles a do-not-disturb status change for
its own account, which changes nothing in the session state (WsClient
has no presence field), and the very next mention-matched direct
message still produces a notification. -/
theorem c3_counterexample :
    reactToPush client1 dndStatusMsg = .ok client1 none ∧
    reactToPush client1 mentionPostedMsg =
      .ok client1 (some "S alice:\nhi\n@23:13:20") := by
  decide

/-- C3 amended: the client stores no presence status at all; every
status-change event is ignored (state unchanged, no notification), and
a mention-matched posted event produces its notification regardless of
any prior status change. -/
theorem c3_no_presence_state :
    (∀ (c : WsClient) (st : Status) (uid : String) (b : Broadcast) (s : Nat),
      reactToPush c ⟨.StatusChange st uid, b, s⟩ = .ok c none) ∧
    reactToPush client1 mentionPostedMsg =
      .ok client1 (some "S alice:\nhi\n@23:13:20") := by
  constructor
  · intro c st uid b s
    simp only [reactToPush]
    split <;> rfl
  · decide

/-- C6 evaluation at the failing input: a mention-matched posted event in
a group channel reaches the channel-type match arm that does not exist
in the source (rustc E0004), while the open-channel case produces
exactly the claimed format. -/
theorem c6_group_channel_unhandled :
    reactToPush client1 groupPostedMsg = .nonexhaustiveMatch ∧
    reactToPush client1 openPostedMsg =
      .ok client1 (some "S alice in Town:\nhi\n@23:13:20") := by
  decide

set_option maxRecDepth 40000 in
/-- C4 counterexample: the nested post payload as a direct JSON object
decodes fine on its own, yet the posted frame carrying it fails to
decode — the embedded-JSON adapter accepts only the double-encoded
string form. -/
theorem c4_counterexample :
    decodePost samplePostJson = some samplePost ∧
    decodeMessage objFormFrame = none := by
  decide

set_option maxRecDepth 40000 in
/-- C4 amended: the deserialize_embedded_json adapter rejects every JSON
object outright (only strings are unwrapped), and the double-encoded
string form of the same posted frame decodes to the expected event. -/
theorem c4_embedded_string_only :
    (∀ fields, deserialize_embedded_json (Json.obj fields) = none) ∧
    decodeMessage strFormFrame = some (.Push expectedPostedPush) :=
  ⟨fun _ => rfl, by decide⟩

/-- Arming the idle expiry when a handle is stored: the old handle is
cancelled, the fresh one scheduled and stored. -/
theorem armTimeout_expire_cancel (s : ConnState) (old : Nat)
    (hco : s.clientTimeout = some old) :
    armTimeout s EXPIRE =
      ⟨(s.scheduled ++ [(s.nextId, EXPIRE)]).filter (fun p => p.1 != old),
       some s.nextId, s.nextId + 1, s.closed⟩ := by
  simp [armTimeout, onNewTimeout, hco]

/-- Arming the idle expiry when no handle is stored: the fresh handle is
scheduled and stored. -/
theorem armTimeout_expire_fresh (s : ConnState)
    (hco : s.clientTimeout = none) :
    armTimeout s EXPIRE =
      ⟨s.scheduled ++ [(s.nextId, EXPIRE)], some s.nextId, s.nextId + 1,
       s.closed⟩ := by
  simp [armTimeout, onNewTimeout, hco]

/-- Arming the keepalive timer schedules a fresh handle and stores
nothing. -/
theorem armTimeout_ping (s : ConnState) :
    armTimeout s PING =
      ⟨s.scheduled ++ [(s.nextId, PING)], s.clientTimeout, s.nextId + 1,
       s.closed⟩ := by
  simp [armTimeout, onNewTimeout, PING, EXPIRE]

/-- The connection invariant is preserved by arming either timer on an
unclosed connection. -/
theorem connInv_armTimeout (s : ConnState) (tok : Nat)
    (htok : tok = PING ∨ tok = EXPIRE) (hcl0 : s.closed = none)
    (h : ConnInv s) : ConnInv (armTimeout s tok) := by
  obtain ⟨htoks, hes, hse, hlt, hnd, hct, -⟩ := h
  have hfresh : s.nextId ∉ s.scheduled.map Prod.fst := by
    intro hmem
    obtain ⟨p, hp, hp1⟩ := List.mem_map.mp hmem
    exact absurd (hp1 ▸ hlt p hp) (lt_irrefl _)
  have hndapp : ∀ t : Nat,
      ((s.scheduled ++ [(s.nextId, t)]).map Prod.fst).Nodup := by
    intro t
    rw [List.map_append]
    simp only [List.map_cons, List.map_nil]
    refine List.nodup_append.mpr ⟨hnd, List.nodup_singleton _, ?_⟩
    intro a ha hb
    simp only [List.mem_singleton] at hb
    rw [hb] at ha
    exact hfresh ha
  rcases htok with hp | he
  · subst hp
    rw [armTimeout_ping]
    refine ⟨?_, ?_, ?_, ?_, hndapp PING, ?_, ?_⟩
    · intro p hp
      rcases List.mem_append.mp hp with hold | hnew
      · exact htoks p hold
      · rw [List.mem_singleton.mp hnew]
        exact Or.inl rfl
    · intro p hp hpe
      rcases List.mem_append.mp hp with hold | hnew
      · exact hes p hold hpe
      · rw [List.mem_singleton.mp hnew] at hpe
        simp [PING, EXPIRE] at hpe
    · intro p hp hpt
      rcases List.mem_append.mp hp with hold | hnew
      · exact hse p hold hpt
      · exfalso
        rw [List.mem_singleton.mp hnew] at hpt
        exact absurd (hct _ hpt) (lt_irrefl _)
    · intro p hp
      rcases List.mem_append.mp hp with hold | hnew
      · exact Nat.lt_succ_of_lt (hlt p hold)
      · rw [List.mem_singleton.mp hnew]
        exact Nat.lt_succ_self _
    · intro i hi
      exact Nat.lt_succ_of_lt (hct i hi)
    · intro hcs
      simp [hcl0] at hcs
  · subst he
    cases hco : s.clientTimeout with
    | some old =>
      rw [armTimeout_expire_cancel s old hco]
      refine ⟨?_, ?_, ?_, ?_, ?_, ?_, ?_⟩
      · intro p hp
        rcases List.mem_append.mp (List.mem_of_mem_filter hp) with hold | hnew
        · exact htoks p hold
        · rw [List.mem_singleton.mp hnew]
          exact Or.inr rfl
      · intro p hp hpe
        have hpne : p.1 ≠ old := by
          have := List.of_mem_filter hp
          simpa using this
        rcases List.mem_append.mp (List.mem_of_mem_filter hp) with hold | hnew
        · exfalso
          have hsome := hes p hold hpe
          rw [hco] at hsome
          exact hpne (Option.some_injective _ hsome).symm
        · rw [List.mem_singleton.mp hnew]
      · intro p hp hpt
        rcases List.mem_append.mp (List.mem_of_mem_filter hp) with hold | hnew
        · exfalso
          have hlt' := hlt p hold
          rw [← Option.some_injective _ hpt] at hlt'
          exact absurd hlt' (lt_irrefl _)
        · rw [List.mem_singleton.mp hnew]
      · intro p hp
        rcases List.mem_append.mp (List.mem_of_mem_filter hp) with hold | hnew
        · exact Nat.lt_succ_of_lt (hlt p hold)
        · rw [List.mem_singleton.mp hnew]
          exact Nat.lt_succ_self _
      · exact List.Nodup.sublist ((List.filter_sublist _).map Prod.fst)
          (hndapp EXPIRE)
      · intro i hi
        rw [← Option.some_injective _ hi]
        exact Nat.lt_succ_self _
      · intro hcs
        simp [hcl0] at hcs
    | none =>
      rw [armTimeout_expire_fresh s hco]
      refine ⟨?_, ?_, ?_, ?_, hndapp EXPIRE, ?_, ?_⟩
      · intro p hp
        rcases List.mem_append.mp hp with hold | hnew
        · exact htoks p hold
        · rw [List.mem_singleton.mp hnew]
          exact Or.inr rfl
      · intro p hp hpe
        rcases List.mem_append.mp hp with hold | hnew
        · exfalso
          have hsome := hes p hold hpe
          rw [hco] at hsome
          cases hsome
        · rw [List.mem_singleton.mp hnew]
      · intro p hp hpt
        rcases List.mem_append.mp hp with hold | hnew
        · exfalso
          have hlt' := hlt p hold
          rw [← Option.some_injective _ hpt] at hlt'
          exact absurd hlt' (lt_irrefl _)
        · rw [List.mem_singleton.mp hnew]
      · intro p hp
        rcases List.mem_append.mp hp with hold | hnew
        · exact Nat.lt_succ_of_lt (hlt p hold)
        · rw [List.mem_singleton.mp hnew]
          exact Nat.lt_succ_self _
      · intro i hi
        rw [← Option.some_injective _ hi]
        exact Nat.lt_succ_self _
      · intro hcs
        simp [hcl0] at hcs

/-- The connection invariant is preserved by dropping scheduled
entries. -/
theorem connInv_filter (s : ConnState) (pred : Nat × Nat → Bool)
    (h : ConnInv s) :
    ConnInv { s with scheduled := s.scheduled.filter pred } := by
  obtain ⟨htoks, hes, hse, hlt, hnd, hct, hcl⟩ := h
  refine ⟨?_, ?_, ?_, ?_, ?_, hct, ?_⟩
  · exact fun p hp => htoks p (List.mem_of_mem_filter hp)
  · exact fun p hp hpe => hes p (List.mem_of_mem_filter hp) hpe
  · exact fun p hp hpt => hse p (List.mem_of_mem_filter hp) hpt
  · exact fun p hp => hlt p (List.mem_of_mem_filter hp)
  · exact List.Nodup.sublist ((List.filter_sublist _).map Prod.fst) hnd
  · intro hcs
    rw [hcl hcs]
    rfl

/-- The connection invariant holds in every closed-out state with an
empty schedule. -/
theorem connInv_closedOut (s : ConnState) (code : CloseCode)
    (h : ∀ i, s.clientTimeout = some i → i < s.nextId) :
    ConnInv { s with scheduled := [], closed := some code } := by
  refine ⟨?_, ?_, ?_, ?_, List.nodup_nil, h, fun _ => rfl⟩ <;>
    exact fun p hp => absurd hp (List.not_mem_nil p)

/-- The connection invariant holds initially. -/
theorem connInv_init : ConnInv initConn := by
  refine ⟨?_, ?_, ?_, ?_, List.nodup_nil, ?_, fun hc => rfl⟩
  · exact fun p hp => absurd hp (List.not_mem_nil p)
  · exact fun p hp => absurd hp (List.not_mem_nil p)
  · exact fun p hp => absurd hp (List.not_mem_nil p)
  · exact fun p hp => absurd hp (List.not_mem_nil p)
  · exact fun i hi => nomatch hi

/-- The connection invariant is preserved by every machine step. -/
theorem connInv_step (s : ConnState) (e : WsEvent) (h : ConnInv s) :
    ConnInv (stepConn s e) := by
  cases hcl : s.closed with
  | some c =>
    have hstep : stepConn s e = s := by
      unfold stepConn
      rw [hcl]
      rfl
    rw [hstep]
    exact h
  | none =>
    cases e with
    | connOpen =>
      have hstep : stepConn s .connOpen =
          armTimeout (armTimeout s PING) EXPIRE := by
        unfold stepConn
        rw [hcl]
        rfl
      rw [hstep]
      have h1 := connInv_armTimeout s PING (Or.inl rfl) hcl h
      have hc1 : (armTimeout s PING).closed = none := by
        rw [armTimeout_ping]
        exact hcl
      exact connInv_armTimeout _ EXPIRE (Or.inr rfl) hc1 h1
    | pongFrame payload =>
      have hstep : stepConn s (.pongFrame payload) =
          if payload = PING_PONG then armTimeout s EXPIRE else s := by
        unfold stepConn
        rw [hcl]
        rfl
      rw [hstep]
      by_cases hp : payload = PING_PONG
      · rw [if_pos hp]
        exact connInv_armTimeout s EXPIRE (Or.inr rfl) hcl h
      · rw [if_neg hp]
        exact h
    | rsvFrame =>
      have hstep : stepConn s .rsvFrame =
          { s with scheduled := [], closed := some .protocolError } := by
        unfold stepConn
        rw [hcl]
        rfl
      rw [hstep]
      exact connInv_closedOut s .protocolError h.2.2.2.2.2.1
    | fire id =>
      have hstep : stepConn s (.fire id) =
          (match s.scheduled.find? (fun p => p.1 == id) with
           | none => s
           | some entry =>
             if entry.2 = PING then
               armTimeout
                 { s with scheduled := s.scheduled.filter (fun p => p.1 != id) }
                 PING
             else if entry.2 = EXPIRE then
               { s with scheduled := [], closed := some .away }
             else
               { s with scheduled := [], closed := some .internalError }) := by
        unfold stepConn
        rw [hcl]
        rfl
      rw [hstep]
      cases hf : s.scheduled.find? (fun p => p.1 == id) with
      | none => exact h
      | some entry =>
        dsimp only
        have h1 := connInv_filter s (fun p => p.1 != id) h
        by_cases hping : entry.2 = PING
        · rw [if_pos hping]
          exact connInv_armTimeout _ PING (Or.inl rfl) hcl h1
        · rw [if_neg hping]
          by_cases hexp : entry.2 = EXPIRE
          · rw [if_pos hexp]
            exact connInv_closedOut _ .away h.2.2.2.2.2.1
          · rw [if_neg hexp]
            exact connInv_closedOut _ .internalError h.2.2.2.2.2.1

/-- The connection invariant holds in every reachable state. -/
theorem connInv_runConn (evs : List WsEvent) : ConnInv (runConn evs) := by
  suffices h : ∀ s, ConnInv s → ConnInv (evs.foldl stepConn s) from
    h initConn connInv_init
  induction evs with
  | nil => exact fun s hs => hs
  | cons e evs ih => exact fun s hs => ih _ (connInv_step s e hs)

/-- Under the invariant at most one EXPIRE timeout is scheduled. -/
theorem expire_filter_length_le_one (s : ConnState) (h : ConnInv s) :
    (s.scheduled.filter (fun p => p.2 == EXPIRE)).length ≤ 1 := by
  obtain ⟨-, hes, -, -, hnd, -, -⟩ := h
  cases hf : s.scheduled.filter (fun p => p.2 == EXPIRE) with
  | nil => simp
  | cons a t =>
    cases t with
    | nil => simp
    | cons b t2 =>
      exfalso
      have hamem : a ∈ s.scheduled.filter (fun p => p.2 == EXPIRE) := by
        rw [hf]
        exact List.mem_cons_self _ _
      have hbmem : b ∈ s.scheduled.filter (fun p => p.2 == EXPIRE) := by
        rw [hf]
        exact List.mem_cons_of_mem _ (List.mem_cons_self _ _)
      have ha2 : a.2 = EXPIRE := by simpa using List.of_mem_filter hamem
      have hb2 : b.2 = EXPIRE := by simpa using List.of_mem_filter hbmem
      have hfst : a.1 = b.1 := by
        have h1 := hes a (List.mem_of_mem_filter hamem) ha2
        have h2 := hes b (List.mem_of_mem_filter hbmem) hb2
        rw [h1] at h2
        exact Option.some_injective _ h2
      have hsubnd : ((s.scheduled.filter (fun p => p.2 == EXPIRE)).map
          Prod.fst).Nodup :=
        List.Nodup.sublist ((List.filter_sublist _).map Prod.fst) hnd
      rw [hf] at hsubnd
      simp only [List.map_cons, List.nodup_cons, List.mem_cons] at hsubnd
      exact hsubnd.1 (Or.inl hfst)

/-- On a schedule with pairwise distinct handles, looking a handle up
finds exactly its entry. -/
theorem find?_fst_eq_of_mem_of_nodup {l : List (Nat × Nat)} {id tok : Nat}
    (hmem : (id, tok) ∈ l) (hnd : (l.map Prod.fst).Nodup) :
    l.find? (fun p => p.1 == id) = some (id, tok) := by
  induction l with
  | nil => cases hmem
  | cons a l ih =>
    simp only [List.map_cons, List.nodup_cons] at hnd
    by_cases ha : a.1 = id
    · rcases List.mem_cons.mp hmem with heq | hl
      · rw [List.find?_cons_of_pos _ (by simp [ha]), heq]
      · exfalso
        apply hnd.1
        rw [ha]
        exact List.mem_map.mpr ⟨(id, tok), hl, rfl⟩
    · rw [List.find?_cons_of_neg]
      · rcases List.mem_cons.mp hmem with heq | hl
        · exfalso
          apply ha
          rw [← heq]
        · exact ih hl hnd.2
      · simp [ha]

/-- C7: in every reachable state of a connection at most one idle-expiry
timeout is outstanding (arming a new one cancels exactly the previously
armed one), and if an outstanding idle-expiry timeout fires without a
matching liveness acknowledgement having replaced it, the connection is
actively closed with the Away code. -/
theorem c7_single_expire_timer (evs : List WsEvent) :
    ((runConn evs).scheduled.filter (fun p => p.2 == EXPIRE)).length ≤ 1 ∧
    ∀ id, (id, EXPIRE) ∈ (runConn evs).scheduled →
      (stepConn (runConn evs) (.fire id)).closed = some .away := by
  have hinv := connInv_runConn evs
  refine ⟨expire_filter_length_le_one _ hinv, ?_⟩
  intro id hmem
  obtain ⟨-, -, -, -, hnd, -, hcl⟩ := hinv
  have hclosed : (runConn evs).closed = none := by
    cases hc : (runConn evs).closed with
    | none => rfl
    | some c =>
      exfalso
      have hempty := hcl (by rw [hc]; rfl)
      rw [hempty] at hmem
      cases hmem
  have hstep : stepConn (runConn evs) (.fire id) =
      (match (runConn evs).scheduled.find? (fun p => p.1 == id) with
       | none => runConn evs
       | some entry =>
         if entry.2 = PING then
           armTimeout
             ⟨(runConn evs).scheduled.filter (fun p => p.1 != id),
              (runConn evs).clientTimeout, (runConn evs).nextId, none⟩ PING
         else if entry.2 = EXPIRE then
           ⟨[], (runConn evs).clientTimeout, (runConn evs).nextId,
            some .away⟩
         else
           ⟨[], (runConn evs).clientTimeout, (runConn evs).nextId,
            some .internalError⟩) := by
    unfold stepConn
    rw [hclosed]
    rfl
  rw [hstep, find?_fst_eq_of_mem_of_nodup hmem hnd]
  dsimp only
  rw [if_neg (by simp [PING, EXPIRE]), if_pos rfl]

/-- C7 witness: after the open handshake the idle-expiry timeout with
handle 1 is outstanding, its filter count is at most one, and firing it
closes the connection with the Away code. -/
theorem c7_single_expire_timer_witness :
    ((runConn [.connOpen]).scheduled.filter
      (fun p => p.2 == EXPIRE)).length ≤ 1 ∧
    (stepConn (runConn [.connOpen]) (.fire 1)).closed = some .away :=
  ⟨(c7_single_expire_timer [.connOpen]).1,
   (c7_single_expire_timer [.connOpen]).2 1 (by decide)⟩

/-- Escaping a non-whitespace character yields no whitespace. -/
theorem escapeChar_no_ws (c : Char) (h : c.isWhitespace = false) :
    ∀ c2 ∈ jsonEscapeChar c, c2.isWhitespace = false := by
  intro c2 hc2
  unfold jsonEscapeChar at hc2
  split_ifs at hc2 <;> fin_cases hc2 <;> first | decide | exact h

/-- A JSON-quoted whitespace-free token contains no whitespace. -/
theorem quoteL_no_ws (t : List Char) (h : ∀ c ∈ t, c.isWhitespace = false) :
    ∀ c2 ∈ jsonQuoteL t, c2.isWhitespace = false := by
  intro c2 hc2
  unfold jsonQuoteL at hc2
  rcases List.mem_cons.mp hc2 with h1 | h1
  · rw [h1]
    decide
  · rcases List.mem_append.mp h1 with h2 | h2
    · obtain ⟨c3, hc3, hc4⟩ := List.mem_flatMap.mp h2
      exact escapeChar_no_ws c3 (h c3 hc3) c2 hc4
    · rw [List.mem_singleton.mp h2]
      decide

/-- A JSON-quoted token is never empty. -/
theorem quoteL_ne_nil (t : List Char) : jsonQuoteL t ≠ [] := by
  unfold jsonQuoteL
  exact List.cons_ne_nil _ _

/-- One step of the whitespace splitter on a non-whitespace head. -/
theorem splitWsAux_cons_nonws (c : Char) (l acc : List Char)
    (hc : c.isWhitespace = false) :
    splitWsAux (c :: l) acc = splitWsAux l (c :: acc) := by
  simp [splitWsAux, hc]

/-- One step of the whitespace splitter on a whitespace head with a
nonempty accumulator: the accumulated word is emitted. -/
theorem splitWsAux_cons_ws (c : Char) (l acc : List Char)
    (hc : c.isWhitespace = true) (hacc : acc ≠ []) :
    splitWsAux (c :: l) acc = acc.reverse :: splitWsAux l [] := by
  simp [splitWsAux, hc, hacc]

/-- The whitespace splitter consumes a whitespace-free prefix into its
accumulator. -/
theorem splitWsAux_consume (w : List Char)
    (h : ∀ c ∈ w, c.isWhitespace = false) :
    ∀ rest acc, splitWsAux (w ++ rest) acc = splitWsAux rest (w.reverse ++ acc) := by
  induction w with
  | nil =>
    intro rest acc
    simp
  | cons c w ih =>
    intro rest acc
    have hc : c.isWhitespace = false := h c (List.mem_cons_self c w)
    rw [List.cons_append, splitWsAux_cons_nonws c (w ++ rest) acc hc,
      ih (fun c2 hc2 => h c2 (List.mem_cons_of_mem c hc2)) rest (c :: acc),
      List.reverse_cons, List.append_assoc]
    rfl

/-- Splitting the space-terminated concatenation of nonempty
whitespace-free chunks recovers exactly the chunks. -/
theorem splitWsAux_chunks (chunks : List (List Char))
    (h : ∀ ch ∈ chunks, ch ≠ [] ∧ ∀ c ∈ ch, c.isWhitespace = false) :
    splitWsAux ((chunks.map (fun ch => ch ++ [' '])).flatten) [] = chunks := by
  induction chunks with
  | nil => rfl
  | cons ch chs ih =>
    obtain ⟨hne, hnws⟩ := h ch (List.mem_cons_self _ _)
    simp only [List.map_cons, List.flatten_cons, List.append_assoc,
      List.singleton_append]
    rw [splitWsAux_consume ch hnws, List.append_nil]
    rw [splitWsAux_cons_ws ' ' _ _ (by decide)
      (fun hrev => hne (List.reverse_eq_nil_iff.mp hrev))]
    rw [List.reverse_reverse]
    exact congrArg (ch :: ·)
      (ih (fun c2 hc2 => h c2 (List.mem_cons_of_mem _ hc2)))

/-- C9 counterexample: encoding the two-element set does not produce the
plain space-joined members: each member is emitted JSON-quoted with a
trailing space, so the whitespace split of the encoding is not the set
of members. -/
theorem c9_counterexample :
    stringSetSerialize ["#a", "#b"] = "\"#a\" \"#b\" " ∧
    splitWhitespaceL (stringSetSerialize ["#a", "#b"]).data ≠
      ["#a".data, "#b".data] := by
  decide

/-- C9 amended: decoding behaves as claimed (the string of two hashtags
decodes to the two-element set, the empty string and a JSON null decode
to the empty set), but encoding emits every member JSON-quoted followed
by one space, so the whitespace split of the encoding is the list of
JSON-quoted members, not the members themselves. -/
theorem c9_hashtag_set_codec :
    (stringSetDeserializeStr "#a #b" = some ["#a", "#b"] ∧
     stringSetDeserializeStr "" = some [] ∧
     stringSetDeserializeNull = []) ∧
    ∀ l : List String,
      (∀ t ∈ l, t.data ≠ [] ∧ ∀ c ∈ t.data, c.isWhitespace = false) →
      splitWhitespaceL (stringSetSerialize l).data =
        l.map (fun t => jsonQuoteL t.data) := by
  refine ⟨⟨by decide, by decide, rfl⟩, ?_⟩
  intro l h
  show splitWsAux ((l.map (fun t => jsonQuoteL t.data ++ [' '])).flatten) [] = _
  have hmap : l.map (fun t => jsonQuoteL t.data ++ [' ']) =
      (l.map (fun t => jsonQuoteL t.data)).map (fun ch => ch ++ [' ']) := by
    rw [List.map_map]
    rfl
  rw [hmap]
  apply splitWsAux_chunks
  intro ch hch
  obtain ⟨t, ht, hteq⟩ := List.mem_map.mp hch
  rw [← hteq]
  exact ⟨quoteL_ne_nil _, quoteL_no_ws _ (h t ht).2⟩

/-- C9 witness: the amended encode property at the concrete two-element
set. -/
theorem c9_hashtag_set_codec_witness :
    (stringSetDeserializeStr "#a #b" = some ["#a", "#b"] ∧
     stringSetDeserializeStr "" = some [] ∧
     stringSetDeserializeNull = []) ∧
    splitWhitespaceL (stringSetSerialize ["#a", "#b"]).data =
      ["#a", "#b"].map (fun t => jsonQuoteL t.data) :=
  ⟨(c9_hashtag_set_codec).1,
   (c9_hashtag_set_codec).2 ["#a", "#b"] (by decide)⟩


end Mattermost
